import Mathlib

/-!
Verification development for the DB-performance-analyzer diagnostic Lambda
(`scripts/pgstat_analyse_database.py`).

The Python module is a stateless request/response transform: a dispatcher
(`lambda_handler`) resolves an environment to a secret name through the AWS
parameter store, opens one PostgreSQL connection, runs a fixed named set of
diagnostic SQL queries, closes the connection, and renders the collected rows
into a text report.

Shallow embedding conventions:
* SQL texts are opaque: the database engine is an external collaborator, so
  each distinct SQL string of the source is one constructor of `SqlText`; the
  behaviour of the database on a query is part of the `World`.
* All external services (parameter store, secrets manager, connection
  establishment, query execution) are oracles packed in a `World` record.
  Every function that performs I/O in Python returns, besides its result, the
  list of `Effect`s it performed, in order.
* A result row (`dict(zip(columns, row))` in the source) is an association
  list from column name to `Value`.  The formatters read fixed column names
  produced by the corresponding SQL statements; reading an absent column
  yields `Value.vnull` (rendered "None"), which is only reachable for rows
  that the SQL of this program cannot produce.
* Python string building by repeated `+=` of f-strings is embedded as a
  `List String` of the appended chunks; the final report text is
  `String.join` of the chunks, which is literally the same string.
* Python `float` arithmetic on row statistics is embedded as `ℚ`.  Digit-level
  rendering of floats (`str`, `round(x, 2)`, `f"{x:.2f}"`) is modelled by
  `decRender` / `round2Render` / `fix2Render`; no claim in this development
  depends on the exact digits these produce.
-/

/-- A scalar cell value of a result row (string, integer, numeric/float,
boolean or SQL NULL). Timestamps and intervals are carried as strings. -/
inductive Value where
  | vstr (s : String)
  | vint (n : Int)
  | vrat (q : ℚ)
  | vbool (b : Bool)
  | vnull
deriving DecidableEq, Repr

/-- A result row: association list from column name to value, mirroring
`dict(zip(columns, row))` in the source. -/
abbrev Row := List (String × Value)

/-- Column access `row[k]` (with the convention that a column absent from the
row reads as SQL NULL). -/
def getv (r : Row) (k : String) : Value :=
  match r.find? (fun p => p.1 == k) with
  | some p => p.2
  | none => Value.vnull

/-- Decimal rendering of a rational, standing in for Python `str` on a float.
The claims under verification never depend on the digits produced here. -/
def decRender (q : ℚ) : String :=
  if q.den = 1 then toString q.num ++ ".0"
  else toString q.num ++ "/" ++ toString q.den

/-- Python `str()` of a cell value, as used by f-string interpolation. -/
def Value.render : Value → String
  | .vstr s => s
  | .vint n => toString n
  | .vrat q => decRender q
  | .vbool b => if b then "True" else "False"
  | .vnull => "None"

/-- Rendered form of column `k` of row `r`, i.e. `f"{row[k]}"`. -/
def renderv (r : Row) (k : String) : String :=
  (getv r k).render

/-- Integer view of a column (the statistics columns read this way are
`bigint`s in the catalog views). -/
def getInt (r : Row) (k : String) : Int :=
  match getv r k with
  | .vint n => n
  | _ => 0

/-- Rational view of a column (used where Python arithmetic promotes the value
to `float`). -/
def getRat (r : Row) (k : String) : ℚ :=
  match getv r k with
  | .vint n => (n : ℚ)
  | .vrat q => q
  | _ => 0

/-- Python truthiness of a cell value (`if v:` / `v or alt`). -/
def pyTruthy : Value → Bool
  | .vstr s => !s.isEmpty
  | .vint n => n != 0
  | .vrat q => q != 0
  | .vbool b => b
  | .vnull => false

/-- Python `a or b` on a rendered cell (used as `{row[k] or 'Never'}`). -/
def renderOr (r : Row) (k : String) (alt : String) : String :=
  if pyTruthy (getv r k) then (getv r k).render else alt

/-- Prefix test on character lists (structurally reducing on the pattern). -/
def chPre : List Char → List Char → Bool
  | [], _ => true
  | _ :: _, [] => false
  | a :: as, b :: bs => a == b && chPre as bs

/-- Sublist (contiguous substring) test on character lists, used to embed
Python's `in` on strings. -/
def isSubList : List Char → List Char → Bool
  | sub, [] => sub.isEmpty
  | sub, a :: as => chPre sub (a :: as) || isSubList sub as

/-- Python `sub in s` for strings. -/
def containsSub (sub s : String) : Bool := isSubList sub.data s.data

/-- Boolean test that `p` is a prefix of `s` (used only in theorem
statements about the rendered chunks). -/
def leadsWith (p s : String) : Bool := chPre p.data s.data

/-- Python `enumerate(xs, i)`. -/
def enumFrom {α : Type} : Nat → List α → List (Nat × α)
  | _, [] => []
  | i, a :: as => (i, a) :: enumFrom (i + 1) as

/-- `results.get(k)` followed by Python truthiness and iteration: a missing
key behaves exactly like an empty list in every use the formatters make of
it, so the lookup is embedded with default `[]`. -/
def lookupD (results : List (String × List Row)) (k : String) : List Row :=
  match results.find? (fun p => p.1 == k) with
  | some p => p.2
  | none => []

/-- String slice `s[:n]`. -/
def strTake (s : String) (n : Nat) : String := ⟨s.data.take n⟩

/-! ### The opaque SQL statements

One constructor per SQL string occurring in the source, named after the
query-set key (or the function, for the single-query actions).  The text of
the SQL is external data handed to the database collaborator and is not
re-verified here. -/

/-- The SQL statements of `pgstat_analyse_database.py`, as opaque tokens. -/
inductive SqlText where
  /-- `CREATE EXTENSION IF NOT EXISTS pg_stat_statements;` — the session-setup
  statement executed before each multi-query set that has one. -/
  | createExtension
  -- execute_slow_query
  | sq_active_slow_queries
  | sq_top_queries_by_avg_time
  | sq_top_queries_by_calls
  | sq_slow_queries_detailed
  | sq_high_io_queries
  | sq_high_temp_queries
  | sq_blocking_queries
  -- execute_connect_issues
  | ci_current_connections
  | ci_connection_stats
  | ci_idle_connections
  | ci_locked_queries
  -- execute_index_analysis
  | ix_unused_indexes
  | ix_missing_indexes
  | ix_index_efficiency
  -- execute_autovacuum_analysis
  | av_current_vacuum_progress
  | av_tables_eligible_for_vacuum
  | av_tables_high_dead_tuple_ratio
  | av_oldest_xid_all_databases
  | av_oldest_xid_by_database
  | av_percent_towards_xid_wraparound
  | av_tables_with_oldest_relfrozenxid
  | av_vacuum_blockers
  | av_inactive_replication_slots
  | av_prepared_transactions
  -- execute_io_analysis
  | io_buffer_usage
  | io_checkpoint_activity
  | io_statistics
  -- execute_replication_analysis
  | rp_aurora_replica_status
  | rp_replication_slots
  | rp_replication_connections
  -- execute_system_health
  | sh_database_statistics
  | sh_lock_contention
  | sh_long_running_transactions
  -- execute_xid_analysis
  | xa_oldest_xid_all_databases
  | xa_oldest_xid_by_database
  | xa_percent_towards_wraparound
  | xa_tables_with_oldest_relfrozenxid
  -- single-query executors
  | vacuum_progress_query
  | bloat_analysis_query
  | long_running_transactions_query
deriving DecidableEq, Repr

/-- Connection parameters returned by the secrets manager. -/
structure Secret where
  host : String
  dbname : String
  username : String
  password : String
  port : String
deriving DecidableEq, Repr

/-- Failure modes of `ssm_client.get_parameter`: `ParameterNotFound` is caught
specially on the `prod` path of `get_env_secret`. -/
inductive PsErr where
  | notFound
  | other (msg : String)
deriving DecidableEq, Repr

/-- Python `str(e)` of a parameter-store exception. -/
def PsErr.render : PsErr → String
  | .notFound => "ParameterNotFound"
  | .other m => m

/-- One externally visible I/O action. -/
inductive Effect where
  /-- `ssm_client.get_parameter` (parameter store). -/
  | ssmGet (name : String)
  /-- `secretsmanager get_secret_value`. -/
  | secretGet (name : String)
  /-- A successful `psycopg2.connect` — a database connection was opened. -/
  | dbConnect
  /-- A failed `psycopg2.connect` attempt. -/
  | dbConnectFail
  /-- `cursor.execute` of one SQL statement. -/
  | dbQuery (q : SqlText)
  /-- `conn.close()`. -/
  | dbClose
deriving DecidableEq, Repr

/-- The external collaborators: parameter store, secrets manager, database
connection establishment, and query execution on the open connection. -/
structure World where
  paramStore : String → Except PsErr String
  secretsMgr : String → Except String Secret
  connectDb : Secret → Except String Unit
  runQuery : SqlText → Except String (List Row)

/-- `get_secret`: fetch and parse the secret, wrapping a client error as
`Failed to get secret: ...`. -/
def get_secret (w : World) (secret_name : String) :
    Except String Secret × List Effect :=
  match w.secretsMgr secret_name with
  | .ok s => (.ok s, [.secretGet secret_name])
  | .error e => (.error ("Failed to get secret: " ++ e), [.secretGet secret_name])

/-- `connect_to_db`: resolve the secret (errors from `get_secret` propagate
unwrapped, since the `try` starts after it), then connect, wrapping a
connection error as `Failed to connect to the database: ...`. -/
def connect_to_db (w : World) (secret_name : String) :
    Except String Unit × List Effect :=
  match get_secret w secret_name with
  | (.error e, t) => (.error e, t)
  | (.ok s, t) =>
    match w.connectDb s with
    | .ok _ => (.ok (), t ++ [.dbConnect])
    | .error e =>
      (.error ("Failed to connect to the database: " ++ e), t ++ [.dbConnectFail])

/-- `get_env_secret`: resolve `/AuroraOps/<environment>` through the parameter
store.  `prod` turns `ParameterNotFound` into a `Parameter not found` message
and lets other client errors propagate; `dev` wraps every failure; any other
environment fails without performing any I/O. -/
def get_env_secret (w : World) (environment : String) :
    Except String String × List Effect :=
  if environment = "prod" then
    match w.paramStore ("/AuroraOps/" ++ environment) with
    | .ok v => (.ok v, [.ssmGet ("/AuroraOps/" ++ environment)])
    | .error .notFound =>
      (.error ("Parameter not found: /AuroraOps/" ++ environment),
        [.ssmGet ("/AuroraOps/" ++ environment)])
    | .error (.other m) => (.error m, [.ssmGet ("/AuroraOps/" ++ environment)])
  else if environment = "dev" then
    match w.paramStore ("/AuroraOps/" ++ environment) with
    | .ok v => (.ok v, [.ssmGet ("/AuroraOps/" ++ environment)])
    | .error e =>
      (.error ("Failed to get dev secret name from Parameter Store: " ++ e.render),
        [.ssmGet ("/AuroraOps/" ++ environment)])
  else
    (.error ("Unknown environment: " ++ environment), [])

/-! ### The query sets -/

/-- Query set of `execute_slow_query`, in dict insertion order. -/
def slowQueryQueries : List (String × SqlText) :=
  [("active_slow_queries", .sq_active_slow_queries),
   ("top_queries_by_avg_time", .sq_top_queries_by_avg_time),
   ("top_queries_by_calls", .sq_top_queries_by_calls),
   ("slow_queries_detailed", .sq_slow_queries_detailed),
   ("high_io_queries", .sq_high_io_queries),
   ("high_temp_queries", .sq_high_temp_queries),
   ("blocking_queries", .sq_blocking_queries)]

/-- Query set of `execute_connect_issues`. -/
def connIssuesQueries : List (String × SqlText) :=
  [("current_connections", .ci_current_connections),
   ("connection_stats", .ci_connection_stats),
   ("idle_connections", .ci_idle_connections),
   ("locked_queries", .ci_locked_queries)]

/-- Query set of `execute_index_analysis`. -/
def indexAnalysisQueries : List (String × SqlText) :=
  [("unused_indexes", .ix_unused_indexes),
   ("missing_indexes", .ix_missing_indexes),
   ("index_efficiency", .ix_index_efficiency)]

/-- Query set of `execute_autovacuum_analysis`. -/
def autovacuumQueries : List (String × SqlText) :=
  [("current_vacuum_progress", .av_current_vacuum_progress),
   ("tables_eligible_for_vacuum", .av_tables_eligible_for_vacuum),
   ("tables_high_dead_tuple_ratio", .av_tables_high_dead_tuple_ratio),
   ("oldest_xid_all_databases", .av_oldest_xid_all_databases),
   ("oldest_xid_by_database", .av_oldest_xid_by_database),
   ("percent_towards_xid_wraparound", .av_percent_towards_xid_wraparound),
   ("tables_with_oldest_relfrozenxid", .av_tables_with_oldest_relfrozenxid),
   ("vacuum_blockers", .av_vacuum_blockers),
   ("inactive_replication_slots", .av_inactive_replication_slots),
   ("prepared_transactions", .av_prepared_transactions)]

/-- Query set of `execute_io_analysis`. -/
def ioAnalysisQueries : List (String × SqlText) :=
  [("buffer_usage", .io_buffer_usage),
   ("checkpoint_activity", .io_checkpoint_activity),
   ("io_statistics", .io_statistics)]

/-- Query set of `execute_replication_analysis`. -/
def replicationQueries : List (String × SqlText) :=
  [("aurora_replica_status", .rp_aurora_replica_status),
   ("replication_slots", .rp_replication_slots),
   ("replication_connections", .rp_replication_connections)]

/-- Query set of `execute_system_health`. -/
def systemHealthQueries : List (String × SqlText) :=
  [("database_statistics", .sh_database_statistics),
   ("lock_contention", .sh_lock_contention),
   ("long_running_transactions", .sh_long_running_transactions)]

/-- Query set of `execute_xid_analysis`. -/
def xidAnalysisQueries : List (String × SqlText) :=
  [("oldest_xid_all_databases", .xa_oldest_xid_all_databases),
   ("oldest_xid_by_database", .xa_oldest_xid_by_database),
   ("percent_towards_wraparound", .xa_percent_towards_wraparound),
   ("tables_with_oldest_relfrozenxid", .xa_tables_with_oldest_relfrozenxid)]

/-! ### The executors -/

/-- The per-query loop shared verbatim by the catching executors: each named
query is attempted; a failure is logged and recorded as `[]` for that name,
and the loop continues with the remaining queries. -/
def execQueriesCatch (w : World) (qs : List (String × SqlText)) :
    List (String × List Row) × List Effect :=
  match qs with
  | [] => ([], [])
  | (n, q) :: rest =>
    let r := match w.runQuery q with
             | .ok rows => rows
             | .error _ => []
    let (res, t) := execQueriesCatch w rest
    ((n, r) :: res, .dbQuery q :: t)

/-- The per-query loop of `execute_slow_query`, which has no inner
`try/except`: the first failing query raises out of the loop. -/
def execQueriesNoCatch (w : World) (qs : List (String × SqlText)) :
    Except String (List (String × List Row)) × List Effect :=
  match qs with
  | [] => (.ok [], [])
  | (n, q) :: rest =>
    match w.runQuery q with
    | .error e => (.error e, [.dbQuery q])
    | .ok rows =>
      match execQueriesNoCatch w rest with
      | (.ok res, t) => (.ok ((n, rows) :: res), .dbQuery q :: t)
      | (.error e, t) => (.error e, .dbQuery q :: t)

/-- `execute_slow_query`: connect (inside the `try`), run the session-setup
statement, then run the query set with **no** per-query recovery; any
exception is re-raised as `Failed to retrieve slow queries: ...`; the
`finally` closes the connection whenever it was opened.  `min_exec_time` is a
parameter of one of the opaque SQL statements. -/
def execute_slow_query (w : World) (secret_name : String) (min_exec_time : Int) :
    Except String (List (String × List Row)) × List Effect :=
  let _ := min_exec_time
  match connect_to_db w secret_name with
  | (.error e, t) => (.error ("Failed to retrieve slow queries: " ++ e), t)
  | (.ok _, t) =>
    match w.runQuery .createExtension with
    | .error e =>
      (.error ("Failed to retrieve slow queries: " ++ e),
        t ++ [.dbQuery .createExtension, .dbClose])
    | .ok _ =>
      match execQueriesNoCatch w slowQueryQueries with
      | (.ok res, t2) => (.ok res, t ++ [.dbQuery .createExtension] ++ t2 ++ [.dbClose])
      | (.error e, t2) =>
        (.error ("Failed to retrieve slow queries: " ++ e),
          t ++ [.dbQuery .createExtension] ++ t2 ++ [.dbClose])

/-- Shared shape of `execute_connect_issues`, `execute_index_analysis` and
`execute_autovacuum_analysis`: connect inside the `try`, session setup, then
the per-query catching loop; errors re-raised with the given message; the
`finally` closes the connection whenever it was opened. -/
def executeCatchStyle (w : World) (secret_name : String) (wrapMsg : String)
    (qs : List (String × SqlText)) :
    Except String (List (String × List Row)) × List Effect :=
  match connect_to_db w secret_name with
  | (.error e, t) => (.error (wrapMsg ++ e), t)
  | (.ok _, t) =>
    match w.runQuery .createExtension with
    | .error e => (.error (wrapMsg ++ e), t ++ [.dbQuery .createExtension, .dbClose])
    | .ok _ =>
      let (res, t2) := execQueriesCatch w qs
      (.ok res, t ++ [.dbQuery .createExtension] ++ t2 ++ [.dbClose])

/-- `execute_connect_issues` (the `min_exec_time` argument is unused by the
source as well). -/
def execute_connect_issues (w : World) (secret_name : String) (min_exec_time : Int) :
    Except String (List (String × List Row)) × List Effect :=
  let _ := min_exec_time
  executeCatchStyle w secret_name "Failed to retrieve connection metrics: " connIssuesQueries

/-- `execute_index_analysis`. -/
def execute_index_analysis (w : World) (secret_name : String) :
    Except String (List (String × List Row)) × List Effect :=
  executeCatchStyle w secret_name "Failed to retrieve index metrics: " indexAnalysisQueries

/-- `execute_autovacuum_analysis`. -/
def execute_autovacuum_analysis (w : World) (secret_name : String) :
    Except String (List (String × List Row)) × List Effect :=
  executeCatchStyle w secret_name "Failed to retrieve autovacuum metrics: " autovacuumQueries

/-- Shared shape of `execute_io_analysis`, `execute_replication_analysis` and
`execute_system_health`: the connection is established **before** the `try`,
so a connection failure propagates unwrapped; afterwards session setup and
the catching loop as above, with the `finally` closing the connection. -/
def executeConnFirstStyle (w : World) (secret_name : String) (wrapMsg : String)
    (qs : List (String × SqlText)) :
    Except String (List (String × List Row)) × List Effect :=
  match connect_to_db w secret_name with
  | (.error e, t) => (.error e, t)
  | (.ok _, t) =>
    match w.runQuery .createExtension with
    | .error e => (.error (wrapMsg ++ e), t ++ [.dbQuery .createExtension, .dbClose])
    | .ok _ =>
      let (res, t2) := execQueriesCatch w qs
      (.ok res, t ++ [.dbQuery .createExtension] ++ t2 ++ [.dbClose])

/-- `execute_io_analysis`. -/
def execute_io_analysis (w : World) (secret_name : String) :
    Except String (List (String × List Row)) × List Effect :=
  executeConnFirstStyle w secret_name "Failed to retrieve I/O metrics: " ioAnalysisQueries

/-- `execute_replication_analysis`. -/
def execute_replication_analysis (w : World) (secret_name : String) :
    Except String (List (String × List Row)) × List Effect :=
  executeConnFirstStyle w secret_name "Failed to retrieve replication metrics: " replicationQueries

/-- `execute_system_health`. -/
def execute_system_health (w : World) (secret_name : String) :
    Except String (List (String × List Row)) × List Effect :=
  executeConnFirstStyle w secret_name "Failed to retrieve system health metrics: " systemHealthQueries

/-- `execute_xid_analysis`: connect inside the `try`, **no** session-setup
statement, per-query catching loop, `finally` closes. -/
def execute_xid_analysis (w : World) (secret_name : String) :
    Except String (List (String × List Row)) × List Effect :=
  match connect_to_db w secret_name with
  | (.error e, t) => (.error ("Failed to retrieve XID analysis: " ++ e), t)
  | (.ok _, t) =>
    let (res, t2) := execQueriesCatch w xidAnalysisQueries
    (.ok res, t ++ t2 ++ [.dbClose])

/-- Shared shape of the three single-query executors: connect inside the
`try`, run one statement, return its rows; errors re-raised with the given
message; `finally` closes. -/
def executeSingleQuery (w : World) (secret_name : String) (wrapMsg : String)
    (q : SqlText) : Except String (List Row) × List Effect :=
  match connect_to_db w secret_name with
  | (.error e, t) => (.error (wrapMsg ++ e), t)
  | (.ok _, t) =>
    match w.runQuery q with
    | .ok rows => (.ok rows, t ++ [.dbQuery q, .dbClose])
    | .error e => (.error (wrapMsg ++ e), t ++ [.dbQuery q, .dbClose])

/-- `execute_vacuum_progress_analysis`. -/
def execute_vacuum_progress_analysis (w : World) (secret_name : String) :
    Except String (List Row) × List Effect :=
  executeSingleQuery w secret_name "Failed to retrieve vacuum progress: " .vacuum_progress_query

/-- `execute_bloat_analysis`. -/
def execute_bloat_analysis (w : World) (secret_name : String) :
    Except String (List Row) × List Effect :=
  executeSingleQuery w secret_name "Failed to retrieve bloat analysis: " .bloat_analysis_query

/-- `execute_long_running_transactions`. -/
def execute_long_running_transactions (w : World) (secret_name : String) :
    Except String (List Row) × List Effect :=
  executeSingleQuery w secret_name "Failed to retrieve long-running transactions: "
    .long_running_transactions_query

/-! ### Chunk helpers

Each Python `output += f"..."` appends one chunk; the helpers below name the
recurring chunk shapes.  The rendered report is `String.join` of the chunks,
which is exactly the string the Python function returns. -/

/-- Chunk `f"• <body>\n"`. -/
def bullet (body : String) : String := "• " ++ body ++ "\n"

/-- Chunk `f"\n<label> #<i>:\n"`. -/
def idxHdr (label : String) (i : Nat) : String :=
  "\n" ++ label ++ " #" ++ toString i ++ ":\n"

/-- Chunk `f"Lock #<i>:\n"`. -/
def lockHdr (i : Nat) : String := "Lock #" ++ toString i ++ ":\n"

/-- Chunk `f"\nRelation: <v>\n"`. -/
def relHdr (v : String) : String := "\nRelation: " ++ v ++ "\n"

/-- Chunk `f"Database: <v>\n"`. -/
def dbLine (v : String) : String := "Database: " ++ v ++ "\n"

/-- Chunk `f"\nDatabase: <v>\n"`. -/
def nlDbLine (v : String) : String := "\nDatabase: " ++ v ++ "\n"

/-- Model of `f"{x:.2f}"` (two forced decimals; rounding half-up). -/
def fix2Render (q : ℚ) : String :=
  let n : Int := Rat.floor (q * 100 + 1/2)
  let fp : Nat := (n % 100).natAbs
  toString (n / 100) ++ "." ++ (if fp < 10 then "0" ++ toString fp else toString fp)

/-- Model of `f"{round(x, 2)}"`. -/
def round2Render (q : ℚ) : String :=
  decRender ((Rat.floor (q * 100 + 1/2) : ℚ) / 100)

/-- The report text of a chunk list (`String.join` = the Python `+=` result). -/
def renderChunks (chunks : List String) : String := String.join chunks

/-! ### The formatters

Each `format_results_for_*` below is the source formatter with the appended
f-string chunks kept as a list; the Python function's return value is
`renderChunks` of it. -/

/-- Chunks of `format_results_for_slow_query`. -/
def format_results_for_slow_query (results : List (String × List Row)) : List String :=
  ["Database Performance Analysis Report\n\n", "=== TOP 20 SLOW QUERIES ===\n"]
  ++ (if (lookupD results "slow_queries").isEmpty then ["No slow queries found.\n"]
      else (enumFrom 1 (lookupD results "slow_queries")).flatMap (fun p =>
        [idxHdr "Query" p.1,
         bullet ("Username: " ++ renderv p.2 "username"),
         bullet ("Database: " ++ renderv p.2 "database"),
         bullet ("Calls: " ++ renderv p.2 "calls"),
         bullet ("Total Time: " ++ round2Render (getRat p.2 "total_time_sec") ++ " sec"),
         bullet ("Avg Time: " ++ round2Render (getRat p.2 "avg_time_sec") ++ " sec"),
         bullet ("Min Time: " ++ round2Render (getRat p.2 "min_time_sec") ++ " sec"),
         bullet ("Max Time: " ++ round2Render (getRat p.2 "max_time_sec") ++ " sec"),
         bullet ("Rows: " ++ renderv p.2 "rows"),
         bullet ("Query: " ++ renderv p.2 "query")]))
  ++ ["\n=== TOP 10 HIGH I/O QUERIES ===\n"]
  ++ (if (lookupD results "high_io_queries").isEmpty then ["No high I/O queries found.\n"]
      else (enumFrom 1 (lookupD results "high_io_queries")).flatMap (fun p =>
        [idxHdr "Query" p.1,
         bullet ("Username: " ++ renderv p.2 "username"),
         bullet ("Database: " ++ renderv p.2 "database"),
         bullet ("Shared Blocks Hit: " ++ renderv p.2 "shared_blks_hit"),
         bullet ("Shared Blocks Read: " ++ renderv p.2 "shared_blks_read"),
         bullet ("Shared Blocks Written: " ++ renderv p.2 "shared_blks_written"),
         bullet ("Temp Blocks Read: " ++ renderv p.2 "temp_blks_read"),
         bullet ("Temp Blocks Written: " ++ renderv p.2 "temp_blks_written"),
         bullet ("Query: " ++ renderv p.2 "query")]))
  ++ ["\n=== TOP 10 HIGH TEMP USAGE QUERIES ===\n"]
  ++ (if (lookupD results "high_temp_queries").isEmpty then ["No high temp usage queries found.\n"]
      else (enumFrom 1 (lookupD results "high_temp_queries")).flatMap (fun p =>
        [idxHdr "Query" p.1,
         bullet ("Username: " ++ renderv p.2 "username"),
         bullet ("Database: " ++ renderv p.2 "database"),
         bullet ("Temp Blocks Read: " ++ renderv p.2 "temp_blks_read"),
         bullet ("Temp Blocks Written: " ++ renderv p.2 "temp_blks_written"),
         bullet ("Query: " ++ renderv p.2 "query")]))
  ++ ["\n=== BLOCKING QUERIES ===\n"]
  ++ (if (lookupD results "blocking_queries").isEmpty then ["No blocking queries found.\n"]
      else (enumFrom 1 (lookupD results "blocking_queries")).flatMap (fun p =>
        [idxHdr "Blocking Situation" p.1,
         bullet ("Blocked PID: " ++ renderv p.2 "blocked_pid"),
         bullet ("Blocked User: " ++ renderv p.2 "blocked_user"),
         bullet ("Blocked Query: " ++ renderv p.2 "blocked_query"),
         bullet ("Blocking PID: " ++ renderv p.2 "blocking_pid"),
         bullet ("Blocking User: " ++ renderv p.2 "blocking_user"),
         bullet ("Blocking Query: " ++ renderv p.2 "blocking_query")]))

/-- Chunks of `format_results_for_conn_issues`. -/
def format_results_for_conn_issues (results : List (String × List Row)) : List String :=
  ["Database Connection Management Analysis Report\n\n", "=== CURRENT CONNECTIONS ===\n"]
  ++ (if (lookupD results "current_connections").isEmpty then ["No current connections found.\n"]
      else (enumFrom 1 (lookupD results "current_connections")).flatMap (fun p =>
        [idxHdr "Connection" p.1,
         bullet ("Database: " ++ renderv p.2 "database"),
         bullet ("Username: " ++ renderv p.2 "username"),
         bullet ("Application: " ++ renderv p.2 "application_name"),
         bullet ("Client Address: " ++ renderv p.2 "client_addr"),
         bullet ("State: " ++ renderv p.2 "state"),
         bullet ("Wait Event Type: " ++ renderv p.2 "wait_event_type"),
         bullet ("Wait Event: " ++ renderv p.2 "wait_event"),
         bullet ("Current Query: " ++ renderv p.2 "query")]))
  ++ ["\n=== DATABASE CONNECTION STATISTICS ===\n"]
  ++ (if (lookupD results "connection_stats").isEmpty then ["No connection statistics available.\n"]
      else (enumFrom 1 (lookupD results "connection_stats")).flatMap (fun p =>
        [nlDbLine (renderv p.2 "database"),
         bullet ("Current Connections: " ++ renderv p.2 "current_connections"),
         bullet ("Commits: " ++ renderv p.2 "commits"),
         bullet ("Rollbacks: " ++ renderv p.2 "rollbacks"),
         bullet ("Blocks Read: " ++ renderv p.2 "blks_read"),
         bullet ("Blocks Hit: " ++ renderv p.2 "blks_hit"),
         bullet ("Tuples Returned: " ++ renderv p.2 "tup_returned"),
         bullet ("Tuples Fetched: " ++ renderv p.2 "tup_fetched"),
         bullet ("Tuples Inserted: " ++ renderv p.2 "tup_inserted"),
         bullet ("Tuples Updated: " ++ renderv p.2 "tup_updated"),
         bullet ("Tuples Deleted: " ++ renderv p.2 "tup_deleted")]))
  ++ ["\n=== IDLE CONNECTIONS ===\n"]
  ++ (if (lookupD results "idle_connections").isEmpty then ["No idle connections found.\n"]
      else (enumFrom 1 (lookupD results "idle_connections")).flatMap (fun p =>
        [idxHdr "Idle Connection" p.1,
         bullet ("Database: " ++ renderv p.2 "database"),
         bullet ("Username: " ++ renderv p.2 "username"),
         bullet ("Application: " ++ renderv p.2 "application_name"),
         bullet ("Client Address: " ++ renderv p.2 "client_addr"),
         bullet ("Backend Start: " ++ renderv p.2 "backend_start"),
         bullet ("State Change: " ++ renderv p.2 "state_change"),
         bullet ("Last Query: " ++ renderv p.2 "query")]))
  ++ ["\n=== LOCKED QUERIES ===\n"]
  ++ (if (lookupD results "locked_queries").isEmpty then ["No locked queries found.\n"]
      else (enumFrom 1 (lookupD results "locked_queries")).flatMap (fun p =>
        [idxHdr "Locked Query" p.1,
         bullet ("PID: " ++ renderv p.2 "pid"),
         bullet ("Username: " ++ renderv p.2 "username"),
         bullet ("Database: " ++ renderv p.2 "database"),
         bullet ("Lock Type: " ++ renderv p.2 "lock_type"),
         bullet ("Lock Mode: " ++ renderv p.2 "mode"),
         bullet ("Application: " ++ renderv p.2 "application_name"),
         bullet ("State: " ++ renderv p.2 "state"),
         bullet ("Query Duration: " ++ renderv p.2 "query_duration"),
         bullet ("Query: " ++ renderv p.2 "query")]))

/-- Chunks of `format_results_for_index_analysis`. -/
def format_results_for_index_analysis (results : List (String × List Row)) : List String :=
  ["Database Index Analysis Report\n\n", "=== UNUSED INDEXES ===\n"]
  ++ (if (lookupD results "unused_indexes").isEmpty then ["No unused indexes found.\n"]
      else (enumFrom 1 (lookupD results "unused_indexes")).flatMap (fun p =>
        [idxHdr "Unused Index" p.1,
         bullet ("Schema: " ++ renderv p.2 "schemaname"),
         bullet ("Table: " ++ renderv p.2 "table_name"),
         bullet ("Index: " ++ renderv p.2 "index_name"),
         bullet ("Scan Count: " ++ renderv p.2 "idx_scan"),
         bullet ("Index Size: " ++ renderv p.2 "index_size")])
        ++ ["\nRecommendation: Consider removing these unused indexes to reduce maintenance overhead and storage space.\n"])
  ++ ["\n=== POTENTIAL MISSING INDEXES (High Sequential Scans) ===\n"]
  ++ (if (lookupD results "missing_indexes").isEmpty
      then ["No tables with significant sequential scans found.\n"]
      else (enumFrom 1 (lookupD results "missing_indexes")).flatMap (fun p =>
        [idxHdr "Table" p.1,
         bullet ("Schema: " ++ renderv p.2 "schemaname"),
         bullet ("Table: " ++ renderv p.2 "table_name"),
         bullet ("Sequential Scans: " ++ renderv p.2 "seq_scan"),
         bullet ("Sequential Tuples Read: " ++ renderv p.2 "seq_tup_read"),
         bullet ("Index Scans: " ++ renderv p.2 "idx_scan"),
         bullet ("Index Tuples Fetched: " ++ renderv p.2 "idx_tup_fetch"),
         bullet ("Table Size: " ++ renderv p.2 "table_size"),
         bullet ("Sequential Scan Ratio: " ++ renderv p.2 "seq_scan_ratio")])
        ++ ["\nRecommendation: Tables with high sequential scan ratios might benefit from additional indexes.\n"])
  ++ ["\n=== INDEX USAGE EFFICIENCY ===\n"]
  ++ (if (lookupD results "index_efficiency").isEmpty then ["No index usage statistics found.\n"]
      else (enumFrom 1 (lookupD results "index_efficiency")).flatMap (fun p =>
        [idxHdr "Index" p.1,
         bullet ("Table: " ++ renderv p.2 "table_name"),
         bullet ("Index: " ++ renderv p.2 "index_name"),
         bullet ("Times Used: " ++ renderv p.2 "times_used"),
         bullet ("Index Size: " ++ renderv p.2 "index_size"),
         bullet ("Scans per Byte: " ++ renderv p.2 "scans_per_byte")])
        ++ ["\nRecommendation: Indexes with very low scans per byte might be candidates for removal or restructuring.\n"])

/-- Warning chunk of the wraparound section of the autovacuum formatter. -/
def warnWraparound : String :=
  "⚠️ WARNING: Database is approaching transaction wraparound limit!\n"

/-- Chunks of `format_results_for_autovacuum_analysis`.  Note the section keys
this formatter reads (`tables_needing_vacuum`, `autovacuum_activity`,
`table_bloat`, `wraparound_status`) — they are compared against the names the
executor actually produces in claim C2. -/
def format_results_for_autovacuum_analysis (results : List (String × List Row)) : List String :=
  ["Database Autovacuum Analysis Report\n\n", "=== TABLES NEEDING VACUUM ===\n"]
  ++ (if (lookupD results "tables_needing_vacuum").isEmpty
      then ["No tables with dead tuples found.\n"]
      else (enumFrom 1 (lookupD results "tables_needing_vacuum")).flatMap (fun p =>
        [idxHdr "Table" p.1,
         bullet ("Table Name: " ++ renderv p.2 "table_name"),
         bullet ("Dead Tuples: " ++ renderv p.2 "dead_tuples"),
         bullet ("Live Tuples: " ++ renderv p.2 "live_tuples"),
         bullet ("Dead Percentage: " ++ renderv p.2 "dead_percentage" ++ "%"),
         bullet ("Last Vacuum: " ++ renderOr p.2 "last_vacuum" "Never"),
         bullet ("Last Autovacuum: " ++ renderOr p.2 "last_autovacuum" "Never"),
         bullet ("Last Analyze: " ++ renderOr p.2 "last_analyze" "Never"),
         bullet ("Last Autoanalyze: " ++ renderOr p.2 "last_autoanalyze" "Never")])
        ++ ["\nRecommendation: Consider running VACUUM on tables with high dead tuple percentages.\n"])
  ++ ["\n=== CURRENT AUTOVACUUM ACTIVITY ===\n"]
  ++ (if (lookupD results "autovacuum_activity").isEmpty
      then ["No active autovacuum processes found.\n"]
      else (enumFrom 1 (lookupD results "autovacuum_activity")).flatMap (fun p =>
        [idxHdr "Autovacuum Process" p.1,
         bullet ("PID: " ++ renderv p.2 "pid"),
         bullet ("Database: " ++ renderv p.2 "datname"),
         bullet ("User: " ++ renderv p.2 "usename"),
         bullet ("State: " ++ renderv p.2 "state"),
         bullet ("Wait Event Type: " ++ renderv p.2 "wait_event_type"),
         bullet ("Wait Event: " ++ renderv p.2 "wait_event"),
         bullet ("Transaction Age: " ++ renderv p.2 "xact_age"),
         bullet ("Query Age: " ++ renderv p.2 "query_age"),
         bullet ("Query: " ++ renderv p.2 "query")]))
  ++ ["\n=== TABLE BLOAT INFORMATION ===\n"]
  ++ (if (lookupD results "table_bloat").isEmpty
      then ["No table bloat information available.\n"]
      else (enumFrom 1 (lookupD results "table_bloat")).flatMap (fun p =>
        [idxHdr "Table" p.1,
         bullet ("Schema: " ++ renderv p.2 "schemaname"),
         bullet ("Table: " ++ renderv p.2 "relname"),
         bullet ("Live Tuples: " ++ renderv p.2 "n_live_tup"),
         bullet ("Dead Tuples: " ++ renderv p.2 "n_dead_tup"),
         bullet ("Total Size: " ++ renderv p.2 "total_size")]))
  ++ ["\n=== TRANSACTION WRAPAROUND STATUS ===\n"]
  ++ (if (lookupD results "wraparound_status").isEmpty
      then ["No wraparound status information available.\n"]
      else (enumFrom 1 (lookupD results "wraparound_status")).flatMap (fun p =>
        [nlDbLine (renderv p.2 "datname"),
         bullet ("XID Age: " ++ renderv p.2 "xid_age"),
         bullet ("Max Age: " ++ renderv p.2 "max_age"),
         bullet ("Percent Towards Wraparound: " ++ renderv p.2 "percent_towards_wraparound" ++ "%")]
        ++ (if 75 < getRat p.2 "percent_towards_wraparound" then [warnWraparound] else [])))

/-- Warning chunk of the buffer-usage section of the I/O formatter. -/
def warnLowBufferHit : String :=
  "⚠️ Warning: Low buffer hit ratio. Consider increasing shared_buffers.\n"

/-- Warning chunk of the checkpoint section of the I/O formatter. -/
def warnCheckpoints : String :=
  "\n⚠️ Warning: High number of requested checkpoints. Consider increasing checkpoint_timeout or max_wal_size.\n"

/-- Warning chunk of the per-table I/O statistics section. -/
def warnLowBufferHitTable : String :=
  "⚠️ Warning: Low buffer hit ratio for this table.\n"

/-- Per-table chunks of the DETAILED I/O STATISTICS section of
`format_results_for_io_analysis` (source lines 919–939):
`total_reads`/`total_hits` are integer sums of the heap and index block
counters and the hit-ratio line is emitted only under
`total_reads + total_hits > 0` — the claim C5 branch. -/
def ioStatRowChunks (i : Nat) (stat : Row) : List String :=
  [idxHdr "Table" i,
   bullet ("Table Name: " ++ renderv stat "table_name"),
   bullet ("Table Size: " ++ renderv stat "table_size"),
   bullet ("Heap Blocks Read: " ++ renderv stat "heap_blks_read"),
   bullet ("Heap Blocks Hit: " ++ renderv stat "heap_blks_hit"),
   bullet ("Index Blocks Read: " ++ renderv stat "idx_blks_read"),
   bullet ("Index Blocks Hit: " ++ renderv stat "idx_blks_hit"),
   bullet ("Toast Blocks Read: " ++ renderv stat "toast_blks_read"),
   bullet ("Toast Blocks Hit: " ++ renderv stat "toast_blks_hit"),
   bullet ("Toast Index Blocks Read: " ++ renderv stat "tidx_blks_read"),
   bullet ("Toast Index Blocks Hit: " ++ renderv stat "tidx_blks_hit")]
  ++ (let total_reads := getInt stat "heap_blks_read" + getInt stat "idx_blks_read"
      let total_hits := getInt stat "heap_blks_hit" + getInt stat "idx_blks_hit"
      if 0 < total_reads + total_hits then
        let hit_ratio : ℚ := ((total_hits : ℚ) / ((total_reads : ℚ) + (total_hits : ℚ))) * 100
        [bullet ("Overall Buffer Hit Ratio: " ++ fix2Render hit_ratio ++ "%")]
        ++ (if hit_ratio < 90 then [warnLowBufferHitTable] else [])
      else [])

/-- Chunks of `format_results_for_io_analysis`. -/
def format_results_for_io_analysis (results : List (String × List Row)) : List String :=
  ["Database I/O Analysis Report\n\n", "=== BUFFER USAGE BY TABLE ===\n"]
  ++ (if (lookupD results "buffer_usage").isEmpty
      then ["No buffer usage statistics available.\n"]
      else (enumFrom 1 (lookupD results "buffer_usage")).flatMap (fun p =>
        [idxHdr "Table" p.1,
         bullet ("Table Name: " ++ renderv p.2 "table_name"),
         bullet ("Blocks Read from Disk: " ++ renderv p.2 "heap_blks_read"),
         bullet ("Blocks Hit in Buffer: " ++ renderv p.2 "heap_blks_hit"),
         bullet ("Buffer Hit Percentage: " ++ renderv p.2 "hit_percentage" ++ "%")]
        ++ (if getRat p.2 "hit_percentage" < 90 then [warnLowBufferHit] else [])))
  ++ ["\n=== CHECKPOINT ACTIVITY ===\n"]
  ++ (match lookupD results "checkpoint_activity" with
      | [] => ["No checkpoint activity information available.\n"]
      | checkpoint :: _ =>
        [bullet ("Scheduled Checkpoints: " ++ renderv checkpoint "checkpoints_timed"),
         bullet ("Requested Checkpoints: " ++ renderv checkpoint "checkpoints_req"),
         bullet ("Checkpoint Write Time: " ++ renderv checkpoint "checkpoint_write_time" ++ " ms"),
         bullet ("Checkpoint Sync Time: " ++ renderv checkpoint "checkpoint_sync_time" ++ " ms"),
         bullet ("Buffers Written During Checkpoints: " ++ renderv checkpoint "buffers_checkpoint"),
         bullet ("Buffers Written by Background Writer: " ++ renderv checkpoint "buffers_clean"),
         bullet ("Buffers Written by Backend Processes: " ++ renderv checkpoint "buffers_backend"),
         bullet ("Backend fsync Calls: " ++ renderv checkpoint "buffers_backend_fsync"),
         bullet ("Buffers Allocated: " ++ renderv checkpoint "buffers_alloc"),
         bullet ("Statistics Reset Time: " ++ renderv checkpoint "stats_reset")]
        ++ (if getInt checkpoint "checkpoints_timed" < getInt checkpoint "checkpoints_req"
            then [warnCheckpoints] else []))
  ++ ["\n=== DETAILED I/O STATISTICS (TOP 20 TABLES) ===\n"]
  ++ (if (lookupD results "io_statistics").isEmpty
      then ["No I/O statistics available.\n"]
      else (enumFrom 1 (lookupD results "io_statistics")).flatMap (fun p =>
        ioStatRowChunks p.1 p.2))

/-- Warning chunks of the replication formatter. -/
def warnHighReplicationLag : String := "⚠️ Warning: High replication lag detected!\n"

/-- Inactive-slot warning of the replication formatter. -/
def warnInactiveSlot : String := "⚠️ Warning: Inactive replication slot detected!\n"

/-- Large-lag warning of the replication formatter. -/
def warnLargeLag : String := "⚠️ Warning: Large replication lag detected!\n"

/-- Chunks of `format_results_for_replication_analysis`. -/
def format_results_for_replication_analysis (results : List (String × List Row)) : List String :=
  ["Database Replication Analysis Report\n\n", "=== AURORA REPLICA STATUS ===\n"]
  ++ (if (lookupD results "aurora_replica_status").isEmpty
      then ["No Aurora replica status information available.\n"]
      else (enumFrom 1 (lookupD results "aurora_replica_status")).flatMap (fun p =>
        [idxHdr "Replica" p.1,
         bullet ("Server ID: " ++ renderv p.2 "server_id"),
         bullet ("Replication Lag: " ++ round2Render (getRat p.2 "lag_seconds") ++ " seconds"),
         bullet ("Durable LSN: " ++ renderv p.2 "durable_lsn"),
         bullet ("Highest Received LSN: " ++ renderv p.2 "highest_lsn_rcvd"),
         bullet ("Current Read LSN: " ++ renderv p.2 "current_read_lsn"),
         bullet ("Last Update: " ++ renderv p.2 "last_update_timestamp")]
        ++ (if 30 < getRat p.2 "lag_seconds" then [warnHighReplicationLag] else [])))
  ++ ["\n=== REPLICATION SLOTS ===\n"]
  ++ (if (lookupD results "replication_slots").isEmpty
      then ["No replication slots found.\n"]
      else (enumFrom 1 (lookupD results "replication_slots")).flatMap (fun p =>
        [idxHdr "Slot" p.1,
         bullet ("Slot Name: " ++ renderv p.2 "slot_name"),
         bullet ("Slot Type: " ++ renderv p.2 "slot_type"),
         bullet ("Active: " ++ renderv p.2 "active"),
         bullet ("Confirmed Flush LSN: " ++ renderv p.2 "confirmed_flush_lsn"),
         bullet ("Lag Size: " ++ renderv p.2 "lag_size")]
        ++ (if pyTruthy (getv p.2 "active") then [] else [warnInactiveSlot])))
  ++ ["\n=== REPLICATION CONNECTIONS ===\n"]
  ++ (if (lookupD results "replication_connections").isEmpty
      then ["No replication connections found.\n"]
      else (enumFrom 1 (lookupD results "replication_connections")).flatMap (fun p =>
        [idxHdr "Connection" p.1,
         bullet ("PID: " ++ renderv p.2 "pid"),
         bullet ("Username: " ++ renderv p.2 "usename"),
         bullet ("Application: " ++ renderv p.2 "application_name"),
         bullet ("Client Address: " ++ renderv p.2 "client_addr"),
         bullet ("Client Hostname: " ++ renderv p.2 "client_hostname"),
         bullet ("Client Port: " ++ renderv p.2 "client_port"),
         bullet ("Backend Start: " ++ renderv p.2 "backend_start"),
         bullet ("State: " ++ renderv p.2 "state"),
         bullet ("Sent LSN: " ++ renderv p.2 "sent_lsn"),
         bullet ("Write LSN: " ++ renderv p.2 "write_lsn"),
         bullet ("Flush LSN: " ++ renderv p.2 "flush_lsn"),
         bullet ("Replay LSN: " ++ renderv p.2 "replay_lsn"),
         bullet ("Lag Size: " ++ renderv p.2 "lag_bytes" ++ " bytes")]
        ++ (if 100000000 < getInt p.2 "lag_bytes" then [warnLargeLag] else [])))

/-- The deadlock warning of `format_results_for_system_health`. -/
def warnDeadlocks : String := "⚠️ Warning: Deadlocks detected!\n"

/-- The conflict warning of `format_results_for_system_health`. -/
def warnConflicts : String := "⚠️ Warning: Conflicts detected!\n"

/-- The temporary-files warning of `format_results_for_system_health`. -/
def warnTempFiles : String := "⚠️ Warning: High number of temporary files created!\n"

/-- The low-cache-hit warning of `format_results_for_system_health`. -/
def warnLowCacheHit : String :=
  "⚠️ Warning: Low cache hit ratio. Consider increasing shared_buffers.\n"

/-- The ungranted-lock warning of `format_results_for_system_health`. -/
def warnLockWaiting : String := "⚠️ Warning: Lock waiting to be granted!\n"

/-- The long-transaction warning of `format_results_for_system_health`. -/
def warnLongTxn : String := "⚠️ Warning: Transaction running for an extended period!\n"

/-- Per-row chunks of the DATABASE STATISTICS section of
`format_results_for_system_health` (source lines 1173–1208), including the
division-guarded cache-hit-ratio lines and the three threshold warnings. -/
def dbStatChunks (stat : Row) : List String :=
  [dbLine (renderv stat "datname"),
   bullet ("Active Connections: " ++ renderv stat "numbackends"),
   bullet ("Transactions Committed: " ++ renderv stat "xact_commit"),
   bullet ("Transactions Rolled Back: " ++ renderv stat "xact_rollback"),
   bullet ("Blocks Read: " ++ renderv stat "blks_read"),
   bullet ("Blocks Hit (Cache): " ++ renderv stat "blks_hit")]
  ++ (let total_blocks := getInt stat "blks_read" + getInt stat "blks_hit"
      if 0 < total_blocks then
        let cacheHitPct : ℚ := ((getInt stat "blks_hit" : ℚ) / (total_blocks : ℚ)) * 100
        [bullet ("Cache Hit Ratio: " ++ fix2Render cacheHitPct ++ "%")]
        ++ (if cacheHitPct < 90 then [warnLowCacheHit] else [])
      else [])
  ++ [bullet ("Tuples Returned: " ++ renderv stat "tup_returned"),
      bullet ("Tuples Fetched: " ++ renderv stat "tup_fetched"),
      bullet ("Tuples Inserted: " ++ renderv stat "tup_inserted"),
      bullet ("Tuples Updated: " ++ renderv stat "tup_updated"),
      bullet ("Tuples Deleted: " ++ renderv stat "tup_deleted"),
      bullet ("Conflicts: " ++ renderv stat "conflicts"),
      bullet ("Temporary Files Created: " ++ renderv stat "temp_files"),
      bullet ("Temporary Bytes Written: " ++ renderv stat "temp_bytes"),
      bullet ("Deadlocks: " ++ renderv stat "deadlocks"),
      bullet ("Block Read Time: " ++ renderv stat "blk_read_time" ++ " ms"),
      bullet ("Block Write Time: " ++ renderv stat "blk_write_time" ++ " ms"),
      bullet ("Statistics Reset: " ++ renderv stat "stats_reset")]
  ++ (if 0 < getInt stat "deadlocks" then [warnDeadlocks] else [])
  ++ (if 0 < getInt stat "conflicts" then [warnConflicts] else [])
  ++ (if 1000 < getInt stat "temp_files" then [warnTempFiles] else [])

/-- Distinct `relation` values of the lock rows, in first-appearance order —
the iteration order of the Python `lock_groups` dict. -/
def lockGroupKeys (rows : List Row) : List Value :=
  rows.foldl (fun acc r => if getv r "relation" ∈ acc then acc else acc ++ [getv r "relation"]) []

/-- Per-lock chunks of the LOCK CONTENTION section. -/
def lockRowChunks (i : Nat) (lock : Row) : List String :=
  [lockHdr i,
   bullet ("Type: " ++ renderv lock "locktype"),
   bullet ("Mode: " ++ renderv lock "mode"),
   bullet ("Transaction ID: " ++ renderv lock "tid"),
   bullet ("Virtual Transaction ID: " ++ renderv lock "vtid"),
   bullet ("PID: " ++ renderv lock "pid"),
   bullet ("Granted: " ++ renderv lock "granted")]
  ++ (if pyTruthy (getv lock "granted") then [] else [warnLockWaiting])

/-- Chunks of the LOCK CONTENTION section body: locks grouped by `relation`
in first-appearance order, each group's locks enumerated from 1. -/
def lockSectionChunks (rows : List Row) : List String :=
  (lockGroupKeys rows).flatMap (fun rel =>
    [relHdr rel.render]
    ++ (enumFrom 1 (rows.filter (fun r => getv r "relation" == rel))).flatMap
        (fun p => lockRowChunks p.1 p.2))

/-- Per-transaction chunks of the LONG-RUNNING TRANSACTIONS section. -/
def txnRowChunks (i : Nat) (txn : Row) : List String :=
  [idxHdr "Transaction" i,
   bullet ("PID: " ++ renderv txn "pid"),
   bullet ("Username: " ++ renderv txn "usename"),
   bullet ("Database: " ++ renderv txn "datname"),
   bullet ("Age: " ++ renderv txn "xact_age"),
   bullet ("State: " ++ renderv txn "state"),
   bullet ("Query: " ++ renderv txn "query")]
  ++ (if containsSub "hours" (renderv txn "xact_age")
        || containsSub "days" (renderv txn "xact_age")
      then [warnLongTxn] else [])

/-- Chunks of `format_results_for_system_health`. -/
def format_results_for_system_health (results : List (String × List Row)) : List String :=
  ["Database System Health Report\n\n", "=== DATABASE STATISTICS ===\n"]
  ++ (if (lookupD results "database_statistics").isEmpty
      then ["No database statistics available.\n"]
      else (lookupD results "database_statistics").flatMap dbStatChunks)
  ++ ["\n=== LOCK CONTENTION ===\n"]
  ++ (if (lookupD results "lock_contention").isEmpty
      then ["No lock contention found.\n"]
      else lockSectionChunks (lookupD results "lock_contention"))
  ++ ["\n=== LONG-RUNNING TRANSACTIONS (> 5 minutes) ===\n"]
  ++ (if (lookupD results "long_running_transactions").isEmpty
      then ["No long-running transactions found.\n"]
      else (enumFrom 1 (lookupD results "long_running_transactions")).flatMap
        (fun p => txnRowChunks p.1 p.2))

/-- Chunks of `format_results_for_vacuum_progress` (single-query action: the
input is the row list itself; an empty input replaces the whole report). -/
def format_results_for_vacuum_progress (results : List Row) : List String :=
  match results with
  | [] => ["No active vacuum operations found."]
  | _ =>
    ["=== CURRENT VACUUM PROGRESS ===\n"]
    ++ (enumFrom 1 results).flatMap (fun p =>
      [idxHdr "Vacuum Operation" p.1,
       bullet ("PID: " ++ renderv p.2 "pid"),
       bullet ("Database: " ++ renderv p.2 "database"),
       bullet ("Table: " ++ renderv p.2 "table"),
       bullet ("Mode: " ++ renderv p.2 "mode"),
       bullet ("Phase: " ++ renderv p.2 "phase"),
       bullet ("Duration: " ++ renderv p.2 "duration"),
       bullet ("Table Size: " ++ renderv p.2 "table_size"),
       bullet ("Scanned: " ++ renderv p.2 "scanned" ++ " (" ++ renderv p.2 "scanned_pct" ++ "%)"),
       bullet ("Vacuumed: " ++ renderv p.2 "vacuumed" ++ " (" ++ renderv p.2 "vacuumed_pct" ++ "%)"),
       bullet ("Dead Tuples: " ++ renderv p.2 "total_num_dead_tuples"),
       bullet ("Wait Event: " ++ renderv p.2 "wait_event")])

/-- Chunks of `format_results_for_xid_analysis`.  Every section is guarded by
truthiness with **no** `else` branch: an empty section is skipped without any
fallback sentence (claim C7). -/
def format_results_for_xid_analysis (results : List (String × List Row)) : List String :=
  ["=== XID WRAPAROUND ANALYSIS ===\n"]
  ++ (match lookupD results "oldest_xid_all_databases" with
      | [] => []
      | r :: _ => ["\nOldest XID across all databases: " ++ renderv r "oldest_xid" ++ "\n"])
  ++ (match lookupD results "percent_towards_wraparound" with
      | [] => []
      | r :: _ =>
        ["\nXID Wraparound Status:\n",
         bullet ("Current oldest XID: " ++ renderv r "oldest_current_xid"),
         bullet ("Percent towards wraparound: " ++ renderv r "percent_towards_wraparound" ++ "%"),
         bullet ("Percent towards emergency autovacuum: "
            ++ renderv r "percent_towards_emergency_autovac" ++ "%")])
  ++ (if (lookupD results "oldest_xid_by_database").isEmpty then []
      else ["\nXID Age by Database:\n"]
        ++ (lookupD results "oldest_xid_by_database").map (fun db =>
              bullet (renderv db "datname" ++ ": " ++ renderv db "xid_age")))
  ++ (if (lookupD results "tables_with_oldest_relfrozenxid").isEmpty then []
      else ["\nTables with Oldest relfrozenxid:\n"]
        ++ (lookupD results "tables_with_oldest_relfrozenxid").map (fun t =>
              bullet (renderv t "schema_name" ++ "." ++ renderv t "table_name"
                ++ ": " ++ renderv t "xid_age")))

/-- Chunks of `format_results_for_bloat_analysis` (single-query action). -/
def format_results_for_bloat_analysis (results : List Row) : List String :=
  match results with
  | [] => ["No significant table bloat found."]
  | _ =>
    ["=== TABLE BLOAT ANALYSIS ===\n"]
    ++ (enumFrom 1 results).flatMap (fun p =>
      [idxHdr "Bloated Table" p.1,
       bullet ("Schema: " ++ renderv p.2 "schemaname"),
       bullet ("Table: " ++ renderv p.2 "tablename"),
       bullet ("Table Size: " ++ renderv p.2 "table_size"),
       bullet ("Bloat Size: " ++ renderv p.2 "bloat_size"),
       bullet ("Bloat Percentage: " ++ renderv p.2 "bloat_percentage" ++ "%"),
       bullet ("Bloat Pages: " ++ renderv p.2 "bloat_pages")])

/-- Chunks of `format_results_for_long_running_transactions` (single-query
action). -/
def format_results_for_long_running_transactions (results : List Row) : List String :=
  match results with
  | [] => ["No long-running transactions found."]
  | _ =>
    ["=== LONG-RUNNING TRANSACTIONS ===\n"]
    ++ (enumFrom 1 results).flatMap (fun p =>
      [idxHdr "Long-Running Transaction" p.1,
       bullet ("PID: " ++ renderv p.2 "pid"),
       bullet ("Database: " ++ renderv p.2 "datname"),
       bullet ("User: " ++ renderv p.2 "usename"),
       bullet ("Application: " ++ renderv p.2 "application_name"),
       bullet ("Transaction Age: " ++ fix2Render (getRat p.2 "xact_age_hours") ++ " hours"),
       bullet ("Query Age: " ++ fix2Render (getRat p.2 "query_age_hours") ++ " hours"),
       bullet ("State: " ++ renderv p.2 "state"),
       bullet ("Wait Event: " ++ renderv p.2 "wait_event_type" ++ "." ++ renderv p.2 "wait_event"),
       bullet ("Query: " ++ strTake (renderv p.2 "query") 100 ++ "...")])

/-! ### The dispatcher -/

/-- The two request parameters the handler extracts. -/
structure Args where
  environment : Option String
  action_type : Option String
deriving DecidableEq, Repr

/-- An incoming event: either the nested shape `{arguments: {...}}` (in which
case only the nested arguments are read) or the flat shape. -/
inductive Event where
  | nested (a : Args)
  | flat (a : Args)
deriving DecidableEq, Repr

/-- The argument record the handler works with. -/
def Event.args : Event → Args
  | .nested a => a
  | .flat a => a

/-- Python `not x` on an optional string parameter: absent (`None`) and empty
string are both falsy. -/
def pyMissing : Option String → Bool
  | none => true
  | some s => s.isEmpty

/-- The two response shapes of the handler:
`{functionResponse: {responseBody: {TEXT: {body: ...}}}}` on success and
`{functionResponse: {content: ...}}` on failure. -/
inductive Response where
  | success (body : String)
  | errorContent (msg : String)
deriving DecidableEq, Repr

/-- The missing-parameter error content. -/
def missingParamsMsg : String :=
  "Error: Missing required parameters. Need 'environment' and 'action_type'."

/-- The unknown-action error content, listing the registered action set. -/
def unknownActionMsg (action_type : String) : String :=
  "Error: Unknown action_type '" ++ action_type
  ++ "'. Available actions: slow_query, connection_management_issues, index_analysis, autovacuum_analysis, io_analysis, replication_analysis, system_health, vacuum_progress, xid_analysis, bloat_analysis, long_running_transactions"

/-- The fixed prefix of every error message produced by the handler's
catch-all `except` clause. -/
def analyzeErrPre : String := "Error analyzing slow queries: "

/-- The eleven registered `action_type` values, in dispatch order. -/
def knownActionTypes : List String :=
  ["slow_query", "connection_management_issues", "index_analysis",
   "autovacuum_analysis", "io_analysis", "replication_analysis",
   "system_health", "vacuum_progress", "xid_analysis", "bloat_analysis",
   "long_running_transactions"]

/-- Composition of one executor with its formatter, as performed by the
matching `elif` branch of `lambda_handler`. -/
def runFmt (r : Except String (List (String × List Row)) × List Effect)
    (fmt : List (String × List Row) → List String) :
    Except String String × List Effect :=
  match r with
  | (.ok res, t) => (.ok (renderChunks (fmt res)), t)
  | (.error e, t) => (.error e, t)

/-- Composition of a single-query executor with its formatter. -/
def runFmtSingle (r : Except String (List Row) × List Effect)
    (fmt : List Row → List String) :
    Except String String × List Effect :=
  match r with
  | (.ok res, t) => (.ok (renderChunks (fmt res)), t)
  | (.error e, t) => (.error e, t)

/-- The `if/elif` dispatch of `lambda_handler` over `action_type`: `none`
means the final `else` (unknown action) was reached; otherwise the formatted
report or the executor's error, with the effects performed. -/
def runAction (w : World) (secret_name : String) (action_type : String) :
    Option (Except String String × List Effect) :=
  if action_type = "slow_query" then
    some (runFmt (execute_slow_query w secret_name 1000) format_results_for_slow_query)
  else if action_type = "connection_management_issues" then
    some (runFmt (execute_connect_issues w secret_name 1000) format_results_for_conn_issues)
  else if action_type = "index_analysis" then
    some (runFmt (execute_index_analysis w secret_name) format_results_for_index_analysis)
  else if action_type = "autovacuum_analysis" then
    some (runFmt (execute_autovacuum_analysis w secret_name) format_results_for_autovacuum_analysis)
  else if action_type = "io_analysis" then
    some (runFmt (execute_io_analysis w secret_name) format_results_for_io_analysis)
  else if action_type = "replication_analysis" then
    some (runFmt (execute_replication_analysis w secret_name) format_results_for_replication_analysis)
  else if action_type = "system_health" then
    some (runFmt (execute_system_health w secret_name) format_results_for_system_health)
  else if action_type = "vacuum_progress" then
    some (runFmtSingle (execute_vacuum_progress_analysis w secret_name)
      format_results_for_vacuum_progress)
  else if action_type = "xid_analysis" then
    some (runFmt (execute_xid_analysis w secret_name) format_results_for_xid_analysis)
  else if action_type = "bloat_analysis" then
    some (runFmtSingle (execute_bloat_analysis w secret_name) format_results_for_bloat_analysis)
  else if action_type = "long_running_transactions" then
    some (runFmtSingle (execute_long_running_transactions w secret_name)
      format_results_for_long_running_transactions)
  else none

/-- `lambda_handler`: extract the arguments (nested shape wins when present),
reject missing parameters, resolve the environment's secret name, dispatch on
`action_type`, and wrap any raised error as
`Error analyzing slow queries: ...` content.  Besides the response, the list
of performed I/O effects is returned. -/
def lambda_handler (w : World) (event : Event) : Response × List Effect :=
  let environment := event.args.environment
  let action_type := event.args.action_type
  if pyMissing environment || pyMissing action_type then
    (.errorContent missingParamsMsg, [])
  else
    let env := environment.getD ""
    let act := action_type.getD ""
    match get_env_secret w env with
    | (.error e, t) => (.errorContent (analyzeErrPre ++ e), t)
    | (.ok secret_name, t) =>
      match runAction w secret_name act with
      | none => (.errorContent (unknownActionMsg act), t)
      | some (.ok body, t2) => (.success body, t ++ t2)
      | some (.error e, t2) => (.errorContent (analyzeErrPre ++ e), t ++ t2)

/-- The rows recorded for one query by the catching loop: the query's rows on
success, `[]` on failure. -/
def queryOrEmpty (w : World) (q : SqlText) : List Row :=
  match w.runQuery q with
  | .ok rows => rows
  | .error _ => []

/-! ### Concrete scenario data

Worlds, rows and events used by the closed scenario theorems and
counterexamples.  Rows carry exactly the columns selected by the SQL
statement that produces them, so the embedded formatters touch the same
fields the Python formatters would. -/

/-- Sample row for the `active_slow_queries` statement. -/
def c2row_active : Row :=
  [("datname", .vstr "db1"), ("pid", .vint 101), ("usename", .vstr "alice"),
   ("application_name", .vstr "app"), ("client_addr", .vstr "10.0.0.1"),
   ("state", .vstr "active"), ("duration", .vstr "0:06:00"),
   ("query", .vstr "SELECT 1")]

/-- Sample row for `top_queries_by_avg_time`. -/
def c2row_avg : Row :=
  [("query", .vstr "SELECT 1"), ("total_time", .vint 5000),
   ("calls", .vint 10), ("avg_time", .vint 500)]

/-- Sample row for `top_queries_by_calls`. -/
def c2row_calls : Row :=
  [("query", .vstr "SELECT 1"), ("calls", .vint 10),
   ("total_time", .vint 5000), ("avg_time", .vint 500)]

/-- Sample row for `slow_queries_detailed`. -/
def c2row_detailed : Row :=
  [("username", .vstr "alice"), ("database", .vstr "db1"),
   ("query", .vstr "SELECT 1"), ("calls", .vint 10),
   ("total_time_sec", .vint 5), ("min_time_sec", .vint 0),
   ("max_time_sec", .vint 2), ("avg_time_sec", .vint 1),
   ("stddev_time_sec", .vint 0), ("rows", .vint 100),
   ("shared_blks_hit", .vint 50), ("shared_blks_read", .vint 5),
   ("shared_blks_dirtied", .vint 0), ("shared_blks_written", .vint 0),
   ("local_blks_hit", .vint 0), ("local_blks_read", .vint 0),
   ("temp_blks_read", .vint 0), ("temp_blks_written", .vint 0),
   ("blk_read_time_sec", .vint 0), ("blk_write_time_sec", .vint 0),
   ("cache_hit_ratio_pct", .vint 90)]

/-- Sample row for `high_io_queries`. -/
def c2row_highio : Row :=
  [("username", .vstr "alice"), ("database", .vstr "db1"),
   ("query", .vstr "SELECT 1"), ("shared_blks_hit", .vint 50),
   ("shared_blks_read", .vint 5), ("shared_blks_dirtied", .vint 0),
   ("shared_blks_written", .vint 1), ("local_blks_hit", .vint 0),
   ("local_blks_read", .vint 0), ("temp_blks_read", .vint 0),
   ("temp_blks_written", .vint 0)]

/-- Sample row for `high_temp_queries`. -/
def c2row_hightemp : Row :=
  [("username", .vstr "alice"), ("database", .vstr "db1"),
   ("query", .vstr "SELECT 1"), ("temp_blks_read", .vint 3),
   ("temp_blks_written", .vint 4)]

/-- Sample row for `blocking_queries`. -/
def c2row_blocking : Row :=
  [("blocked_pid", .vint 11), ("blocked_user", .vstr "alice"),
   ("blocking_pid", .vint 12), ("blocking_user", .vstr "bob"),
   ("blocked_query", .vstr "UPDATE t"), ("blocking_query", .vstr "DELETE FROM t")]

/-- One nonempty sample result per SQL statement: the slow-query statements
get rows with their real columns (the slow-query formatter reads them), the
rest a generic nonempty row (no formatter keyed to them ever reads one). -/
def c2rows : SqlText → List Row
  | .createExtension => []
  | .sq_active_slow_queries => [c2row_active]
  | .sq_top_queries_by_avg_time => [c2row_avg]
  | .sq_top_queries_by_calls => [c2row_calls]
  | .sq_slow_queries_detailed => [c2row_detailed]
  | .sq_high_io_queries => [c2row_highio]
  | .sq_high_temp_queries => [c2row_hightemp]
  | .sq_blocking_queries => [c2row_blocking]
  | _ => [[("c", Value.vint 1)]]

/-- A world in which every external call succeeds and every query returns
one row. -/
def wAllOk : World :=
  { paramStore := fun _ => .ok "secret-dev"
    secretsMgr := fun _ => .ok ⟨"h", "db", "u", "pw", "5432"⟩
    connectDb := fun _ => .ok ()
    runQuery := fun q => .ok (c2rows q) }

/-- Like `wAllOk`, but the first named query of the slow-query set fails. -/
def wFailActive : World :=
  { wAllOk with
    runQuery := fun q =>
      if q = .sq_active_slow_queries then .error "boom" else .ok (c2rows q) }

/-- A `database_statistics` row with `deadlocks = 0`, `conflicts = 0`,
`temp_files = 5` — the no-warning scenario of claim C6. -/
def c6row_noWarn : Row :=
  [("datname", .vstr "mydb"), ("numbackends", .vint 3),
   ("xact_commit", .vint 100), ("xact_rollback", .vint 1),
   ("blks_read", .vint 0), ("blks_hit", .vint 0),
   ("tup_returned", .vint 10), ("tup_fetched", .vint 5),
   ("tup_inserted", .vint 2), ("tup_updated", .vint 1),
   ("tup_deleted", .vint 0), ("conflicts", .vint 0),
   ("temp_files", .vint 5), ("temp_bytes", .vint 0),
   ("deadlocks", .vint 0), ("blk_read_time", .vint 0),
   ("blk_write_time", .vint 0), ("stats_reset", .vstr "2025-01-01 00:00:00")]

/-- The same statistics row with `deadlocks = 2` — the warning scenario of
claim C6. -/
def c6row_deadlock : Row :=
  [("datname", .vstr "mydb"), ("numbackends", .vint 3),
   ("xact_commit", .vint 100), ("xact_rollback", .vint 1),
   ("blks_read", .vint 0), ("blks_hit", .vint 0),
   ("tup_returned", .vint 10), ("tup_fetched", .vint 5),
   ("tup_inserted", .vint 2), ("tup_updated", .vint 1),
   ("tup_deleted", .vint 0), ("conflicts", .vint 0),
   ("temp_files", .vint 5), ("temp_bytes", .vint 0),
   ("deadlocks", .vint 2), ("blk_read_time", .vint 0),
   ("blk_write_time", .vint 0), ("stats_reset", .vstr "2025-01-01 00:00:00")]

/-- System-health results of the no-warning scenario. -/
def c6results1 : List (String × List Row) :=
  [("database_statistics", [c6row_noWarn]), ("lock_contention", []),
   ("long_running_transactions", [])]

/-- System-health results of the deadlock scenario. -/
def c6results2 : List (String × List Row) :=
  [("database_statistics", [c6row_deadlock]), ("lock_contention", []),
   ("long_running_transactions", [])]

/-- A `database_statistics` row whose hit-ratio denominator
`blks_read + blks_hit` is zero (claim C5). -/
def c5statRow : Row :=
  [("datname", .vstr "mydb"), ("numbackends", .vint 1),
   ("xact_commit", .vint 10), ("xact_rollback", .vint 0),
   ("blks_read", .vint 0), ("blks_hit", .vint 0),
   ("tup_returned", .vint 0), ("tup_fetched", .vint 0),
   ("tup_inserted", .vint 0), ("tup_updated", .vint 0),
   ("tup_deleted", .vint 0), ("conflicts", .vint 0),
   ("temp_files", .vint 0), ("temp_bytes", .vint 0),
   ("deadlocks", .vint 0), ("blk_read_time", .vint 0),
   ("blk_write_time", .vint 0), ("stats_reset", .vstr "2025-01-01 00:00:00")]

/-- System-health results carrying `c5statRow`. -/
def c5results : List (String × List Row) :=
  [("database_statistics", [c5statRow]), ("lock_contention", []),
   ("long_running_transactions", [])]

/-- An `io_statistics` row whose heap/index reads-plus-hits sum is zero
(claim C5). -/
def c5ioRow : Row :=
  [("table_name", .vstr "t1"), ("table_size", .vstr "8192 bytes"),
   ("heap_blks_read", .vint 0), ("heap_blks_hit", .vint 0),
   ("idx_blks_read", .vint 0), ("idx_blks_hit", .vint 0),
   ("toast_blks_read", .vint 0), ("toast_blks_hit", .vint 0),
   ("tidx_blks_read", .vint 0), ("tidx_blks_hit", .vint 0)]

/-- I/O-analysis results carrying `c5ioRow`. -/
def c5ioResults : List (String × List Row) :=
  [("buffer_usage", []), ("checkpoint_activity", []),
   ("io_statistics", [c5ioRow])]

/-- Request with an unknown environment and an unknown action type
(claim C1). -/
def evC1 : Event := .flat ⟨some "staging", some "bogus"⟩

/-- Request with the valid `dev` environment and an unknown action type
(claims C1 and C4). -/
def evC4 : Event := .flat ⟨some "dev", some "bogus"⟩

/-- The result set `execute_slow_query` produces in `wAllOk`: one entry per
declared query name, in declared order, each nonempty. -/
def slowC2Results : List (String × List Row) :=
  slowQueryQueries.map (fun p => (p.1, c2rows p.2))

/-- The result set `execute_autovacuum_analysis` produces in `wAllOk`. -/
def avC2Results : List (String × List Row) :=
  autovacuumQueries.map (fun p => (p.1, c2rows p.2))

/-! ### Helper lemmas -/

theorem ne_of_heads {s t : String} {c d : Char} (hs : s.data.head? = some c)
    (ht : t.data.head? = some d) (hcd : c ≠ d) : s ≠ t := by
  intro h
  rw [h, ht] at hs
  exact hcd (Option.some.inj hs).symm

theorem bullet_head (b : String) : (bullet b).data.head? = some '•' := rfl

theorem dbLine_head (v : String) : (dbLine v).data.head? = some 'D' := rfl

theorem idxHdr_head (l : String) (i : Nat) : (idxHdr l i).data.head? = some '\n' := rfl

theorem lockHdr_head (i : Nat) : (lockHdr i).data.head? = some 'L' := rfl

theorem relHdr_head (v : String) : (relHdr v).data.head? = some '\n' := rfl

theorem nlDbLine_head (v : String) : (nlDbLine v).data.head? = some '\n' := rfl

@[simp] theorem dwarn_ne_bullet (b : String) :
    ("⚠️ Warning: Deadlocks detected!\n" : String) ≠ bullet b :=
  ne_of_heads rfl (bullet_head b) (by decide)

@[simp] theorem dwarn_ne_dbLine (v : String) :
    ("⚠️ Warning: Deadlocks detected!\n" : String) ≠ dbLine v :=
  ne_of_heads rfl (dbLine_head v) (by decide)

@[simp] theorem dwarn_ne_idxHdr (l : String) (i : Nat) :
    ("⚠️ Warning: Deadlocks detected!\n" : String) ≠ idxHdr l i :=
  ne_of_heads rfl (idxHdr_head l i) (by decide)

@[simp] theorem dwarn_ne_lockHdr (i : Nat) :
    ("⚠️ Warning: Deadlocks detected!\n" : String) ≠ lockHdr i :=
  ne_of_heads rfl (lockHdr_head i) (by decide)

@[simp] theorem dwarn_ne_relHdr (v : String) :
    ("⚠️ Warning: Deadlocks detected!\n" : String) ≠ relHdr v :=
  ne_of_heads rfl (relHdr_head v) (by decide)

@[simp] theorem cwarn_ne_bullet (b : String) :
    ("⚠️ Warning: Conflicts detected!\n" : String) ≠ bullet b :=
  ne_of_heads rfl (bullet_head b) (by decide)

@[simp] theorem cwarn_ne_dbLine (v : String) :
    ("⚠️ Warning: Conflicts detected!\n" : String) ≠ dbLine v :=
  ne_of_heads rfl (dbLine_head v) (by decide)

@[simp] theorem cwarn_ne_idxHdr (l : String) (i : Nat) :
    ("⚠️ Warning: Conflicts detected!\n" : String) ≠ idxHdr l i :=
  ne_of_heads rfl (idxHdr_head l i) (by decide)

@[simp] theorem cwarn_ne_lockHdr (i : Nat) :
    ("⚠️ Warning: Conflicts detected!\n" : String) ≠ lockHdr i :=
  ne_of_heads rfl (lockHdr_head i) (by decide)

@[simp] theorem cwarn_ne_relHdr (v : String) :
    ("⚠️ Warning: Conflicts detected!\n" : String) ≠ relHdr v :=
  ne_of_heads rfl (relHdr_head v) (by decide)

@[simp] theorem twarn_ne_bullet (b : String) :
    ("⚠️ Warning: High number of temporary files created!\n" : String) ≠ bullet b :=
  ne_of_heads rfl (bullet_head b) (by decide)

@[simp] theorem twarn_ne_dbLine (v : String) :
    ("⚠️ Warning: High number of temporary files created!\n" : String) ≠ dbLine v :=
  ne_of_heads rfl (dbLine_head v) (by decide)

@[simp] theorem twarn_ne_idxHdr (l : String) (i : Nat) :
    ("⚠️ Warning: High number of temporary files created!\n" : String) ≠ idxHdr l i :=
  ne_of_heads rfl (idxHdr_head l i) (by decide)

@[simp] theorem twarn_ne_lockHdr (i : Nat) :
    ("⚠️ Warning: High number of temporary files created!\n" : String) ≠ lockHdr i :=
  ne_of_heads rfl (lockHdr_head i) (by decide)

@[simp] theorem twarn_ne_relHdr (v : String) :
    ("⚠️ Warning: High number of temporary files created!\n" : String) ≠ relHdr v :=
  ne_of_heads rfl (relHdr_head v) (by decide)

theorem mem_ite_nil {α : Type} {c : Prop} [Decidable c] {a : α} {l : List α} :
    (a ∈ if c then l else []) ↔ c ∧ a ∈ l := by
  split <;> simp_all

theorem mem_ite_nil_left {α : Type} {c : Prop} [Decidable c] {a : α} {l : List α} :
    (a ∈ if c then [] else l) ↔ ¬c ∧ a ∈ l := by
  split <;> simp_all

theorem execQueriesCatch_eq (w : World) (qs : List (String × SqlText)) :
    execQueriesCatch w qs =
      (qs.map (fun p => (p.1, queryOrEmpty w p.2)),
       qs.map (fun p => Effect.dbQuery p.2)) := by
  induction qs with
  | nil => rfl
  | cons p rest ih => simp [execQueriesCatch, ih, queryOrEmpty]

theorem execQueriesNoCatch_effects (w : World) (qs : List (String × SqlText)) :
    ∀ e ∈ (execQueriesNoCatch w qs).2, ∃ q, e = Effect.dbQuery q := by
  induction qs with
  | nil => simp [execQueriesNoCatch]
  | cons p rest ih =>
    intro e he
    rw [execQueriesNoCatch] at he
    rcases hq : w.runQuery p.2 with err | rows
    · rw [hq] at he
      simp at he
      exact ⟨p.2, he⟩
    · rw [hq] at he
      rcases hrest : execQueriesNoCatch w rest with ⟨res, t⟩
      rcases res with e' | res <;>
        · rw [hrest] at he
          simp at he
          rcases he with he | he
          · exact ⟨p.2, he⟩
          · exact ih e (by rw [hrest]; exact he)

theorem count_eff_map_dbQuery (qs : List (String × SqlText)) (e : Effect)
    (h : ∀ q, e ≠ Effect.dbQuery q) :
    (qs.map (fun p => Effect.dbQuery p.2)).count e = 0 := by
  rw [List.count_eq_zero]
  intro hmem
  rcases List.mem_map.1 hmem with ⟨p, _, hp⟩
  exact h p.2 hp.symm

theorem count_eq_zero_of_only_queries {t : List Effect}
    (h : ∀ e ∈ t, ∃ q, e = Effect.dbQuery q) (e : Effect)
    (he : ∀ q, e ≠ Effect.dbQuery q) : t.count e = 0 := by
  rw [List.count_eq_zero]
  intro hmem
  rcases h e hmem with ⟨q, hq⟩
  exact he q hq

theorem connect_trace_ok (w : World) (s : String) (t : List Effect)
    (h : connect_to_db w s = (.ok (), t)) :
    t.count .dbConnect = 1 ∧ t.count .dbClose = 0 := by
  rw [connect_to_db] at h
  rcases hs : get_secret w s with ⟨res, t0⟩
  rw [hs] at h
  have ht0 : t0 = [Effect.secretGet s] := by
    rw [get_secret] at hs
    rcases hm : w.secretsMgr s with e | sec'
    · rw [hm] at hs; exact (Prod.mk.injEq _ _ _ _ ▸ hs).2.symm
    · rw [hm] at hs; exact (Prod.mk.injEq _ _ _ _ ▸ hs).2.symm
  rcases res with e | sec
  · simp at h
  · simp only [] at h
    rcases hc : w.connectDb sec with e | u
    · rw [hc] at h; simp at h
    · rw [hc] at h
      simp at h
      rw [← h, ht0]
      exact ⟨rfl, rfl⟩

theorem connect_trace_err (w : World) (s : String) (e : String) (t : List Effect)
    (h : connect_to_db w s = (.error e, t)) :
    t.count .dbConnect = 0 ∧ t.count .dbClose = 0 := by
  rw [connect_to_db] at h
  rcases hs : get_secret w s with ⟨res, t0⟩
  rw [hs] at h
  have ht0 : t0 = [Effect.secretGet s] := by
    rw [get_secret] at hs
    rcases hm : w.secretsMgr s with e' | sec'
    · rw [hm] at hs; exact (Prod.mk.injEq _ _ _ _ ▸ hs).2.symm
    · rw [hm] at hs; exact (Prod.mk.injEq _ _ _ _ ▸ hs).2.symm
  rcases res with e' | sec
  · simp at h
    rw [← h.2, ht0]
    exact ⟨rfl, rfl⟩
  · simp only [] at h
    rcases hc : w.connectDb sec with e' | u
    · rw [hc] at h
      simp at h
      rw [← h.2, ht0]
      exact ⟨rfl, rfl⟩
    · rw [hc] at h; simp at h

theorem catchStyle_balance (w : World) (s msg : String) (qs : List (String × SqlText)) :
    ((executeCatchStyle w s msg qs).2).count .dbConnect =
      ((executeCatchStyle w s msg qs).2).count .dbClose := by
  rw [executeCatchStyle]
  rcases hcd : connect_to_db w s with ⟨res, t⟩
  rcases res with e | u
  · have := connect_trace_err w s e t hcd
    simp [this.1, this.2]
  · have hz := connect_trace_ok w s t hcd
    rcases hse : w.runQuery .createExtension with e | rows
    · simp [List.count_append, hz.1, hz.2]
    · rw [execQueriesCatch_eq]
      simp only []
      have hA := count_eff_map_dbQuery qs Effect.dbConnect (fun q h => by cases h)
      have hB := count_eff_map_dbQuery qs Effect.dbClose (fun q h => by cases h)
      simp [List.count_append, hz.1, hz.2, hA, hB]

theorem connFirstStyle_balance (w : World) (s msg : String) (qs : List (String × SqlText)) :
    ((executeConnFirstStyle w s msg qs).2).count .dbConnect =
      ((executeConnFirstStyle w s msg qs).2).count .dbClose := by
  rw [executeConnFirstStyle]
  rcases hcd : connect_to_db w s with ⟨res, t⟩
  rcases res with e | u
  · have := connect_trace_err w s e t hcd
    simp [this.1, this.2]
  · have hz := connect_trace_ok w s t hcd
    rcases hse : w.runQuery .createExtension with e | rows
    · simp [List.count_append, hz.1, hz.2]
    · rw [execQueriesCatch_eq]
      simp only []
      have hA := count_eff_map_dbQuery qs Effect.dbConnect (fun q h => by cases h)
      have hB := count_eff_map_dbQuery qs Effect.dbClose (fun q h => by cases h)
      simp [List.count_append, hz.1, hz.2, hA, hB]

theorem singleQuery_balance (w : World) (s msg : String) (q : SqlText) :
    ((executeSingleQuery w s msg q).2).count .dbConnect =
      ((executeSingleQuery w s msg q).2).count .dbClose := by
  rw [executeSingleQuery]
  rcases hcd : connect_to_db w s with ⟨res, t⟩
  rcases res with e | u
  · have := connect_trace_err w s e t hcd
    simp [this.1, this.2]
  · have hz := connect_trace_ok w s t hcd
    rcases hse : w.runQuery q with e | rows <;>
      simp [List.count_append, hz.1, hz.2]

theorem slow_query_balance (w : World) (s : String) (m : Int) :
    ((execute_slow_query w s m).2).count .dbConnect =
      ((execute_slow_query w s m).2).count .dbClose := by
  rw [execute_slow_query]
  rcases hcd : connect_to_db w s with ⟨res, t⟩
  rcases res with e | u
  · have := connect_trace_err w s e t hcd
    simp [this.1, this.2]
  · have hz := connect_trace_ok w s t hcd
    rcases hse : w.runQuery .createExtension with e | rows
    · simp [List.count_append, hz.1, hz.2]
    · rcases hq : execQueriesNoCatch w slowQueryQueries with ⟨qres, t2⟩
      have ht2 : t2.count .dbConnect = 0 ∧ t2.count .dbClose = 0 := by
        have hall := execQueriesNoCatch_effects w slowQueryQueries
        rw [hq] at hall
        exact ⟨count_eq_zero_of_only_queries hall Effect.dbConnect (fun q h => by cases h),
               count_eq_zero_of_only_queries hall Effect.dbClose (fun q h => by cases h)⟩
      rcases qres with e | res <;>
        simp [List.count_append, hz.1, hz.2, ht2.1, ht2.2]

theorem xid_balance (w : World) (s : String) :
    ((execute_xid_analysis w s).2).count .dbConnect =
      ((execute_xid_analysis w s).2).count .dbClose := by
  rw [execute_xid_analysis]
  rcases hcd : connect_to_db w s with ⟨res, t⟩
  rcases res with e | u
  · have := connect_trace_err w s e t hcd
    simp [this.1, this.2]
  · have hz := connect_trace_ok w s t hcd
    rw [execQueriesCatch_eq]
    simp only []
    have hA := count_eff_map_dbQuery xidAnalysisQueries Effect.dbConnect (fun q h => by cases h)
    have hB := count_eff_map_dbQuery xidAnalysisQueries Effect.dbClose (fun q h => by cases h)
    simp [List.count_append, hz.1, hz.2, hA, hB]

/-- C8: for every action routine (each `execute_*` function) and every
behaviour of the external world, the trace of performed effects contains
exactly as many `dbClose` events as successful `dbConnect` events — on normal
return, on failure of the session-setup statement, on failure of a named
query, and on any other error path alike.  Since at most one connection is
opened per request, this says every successfully opened connection is closed
before the routine returns or propagates its error (the `finally` blocks of
the source). -/
theorem C8_connection_released (w : World) (s : String) (m : Int) :
    (((execute_slow_query w s m).2).count .dbConnect
        = ((execute_slow_query w s m).2).count .dbClose)
    ∧ (((execute_connect_issues w s m).2).count .dbConnect
        = ((execute_connect_issues w s m).2).count .dbClose)
    ∧ (((execute_index_analysis w s).2).count .dbConnect
        = ((execute_index_analysis w s).2).count .dbClose)
    ∧ (((execute_autovacuum_analysis w s).2).count .dbConnect
        = ((execute_autovacuum_analysis w s).2).count .dbClose)
    ∧ (((execute_io_analysis w s).2).count .dbConnect
        = ((execute_io_analysis w s).2).count .dbClose)
    ∧ (((execute_replication_analysis w s).2).count .dbConnect
        = ((execute_replication_analysis w s).2).count .dbClose)
    ∧ (((execute_system_health w s).2).count .dbConnect
        = ((execute_system_health w s).2).count .dbClose)
    ∧ (((execute_vacuum_progress_analysis w s).2).count .dbConnect
        = ((execute_vacuum_progress_analysis w s).2).count .dbClose)
    ∧ (((execute_xid_analysis w s).2).count .dbConnect
        = ((execute_xid_analysis w s).2).count .dbClose)
    ∧ (((execute_bloat_analysis w s).2).count .dbConnect
        = ((execute_bloat_analysis w s).2).count .dbClose)
    ∧ (((execute_long_running_transactions w s).2).count .dbConnect
        = ((execute_long_running_transactions w s).2).count .dbClose) :=
  ⟨slow_query_balance w s m,
   catchStyle_balance w s _ connIssuesQueries,
   catchStyle_balance w s _ indexAnalysisQueries,
   catchStyle_balance w s _ autovacuumQueries,
   connFirstStyle_balance w s _ ioAnalysisQueries,
   connFirstStyle_balance w s _ replicationQueries,
   connFirstStyle_balance w s _ systemHealthQueries,
   singleQuery_balance w s _ .vacuum_progress_query,
   xid_balance w s,
   singleQuery_balance w s _ .bloat_analysis_query,
   singleQuery_balance w s _ .long_running_transactions_query⟩

theorem connect_trace_ok_eq (w : World) (s : String) (t : List Effect)
    (h : connect_to_db w s = (.ok (), t)) : t = [Effect.secretGet s, Effect.dbConnect] := by
  rw [connect_to_db] at h
  rcases hs : get_secret w s with ⟨res, t0⟩
  rw [hs] at h
  have ht0 : t0 = [Effect.secretGet s] := by
    rw [get_secret] at hs
    rcases hm : w.secretsMgr s with e | sec'
    · rw [hm] at hs; exact (Prod.mk.injEq _ _ _ _ ▸ hs).2.symm
    · rw [hm] at hs; exact (Prod.mk.injEq _ _ _ _ ▸ hs).2.symm
  rcases res with e | sec
  · simp at h
  · simp only [] at h
    rcases hc : w.connectDb sec with e | u
    · rw [hc] at h; simp at h
    · rw [hc] at h
      simp at h
      rw [← h, ht0]
      rfl

theorem catchStyle_ok (w : World) (s msg : String) (qs : List (String × SqlText))
    (t : List Effect) (rows : List Row)
    (hcd : connect_to_db w s = (.ok (), t))
    (hse : w.runQuery .createExtension = .ok rows) :
    (executeCatchStyle w s msg qs).1 = .ok (qs.map (fun p => (p.1, queryOrEmpty w p.2)))
    ∧ ∀ p ∈ qs, Effect.dbQuery p.2 ∈ (executeCatchStyle w s msg qs).2 := by
  have h1 : executeCatchStyle w s msg qs
      = (.ok (qs.map (fun p => (p.1, queryOrEmpty w p.2))),
         t ++ [Effect.dbQuery .createExtension]
           ++ qs.map (fun p => Effect.dbQuery p.2) ++ [Effect.dbClose]) := by
    rw [executeCatchStyle, hcd]
    simp only []
    rw [hse, execQueriesCatch_eq]
  rw [h1]
  refine ⟨rfl, ?_⟩
  intro p hp
  exact List.mem_append_left _ (List.mem_append_right _ (List.mem_map.2 ⟨p, hp, rfl⟩))

theorem catchStyle_setup_abort (w : World) (s msg : String) (qs : List (String × SqlText))
    (t : List Effect) (e : String)
    (hcd : connect_to_db w s = (.ok (), t))
    (hse : w.runQuery .createExtension = .error e) :
    (executeCatchStyle w s msg qs).1 = .error (msg ++ e) := by
  rw [executeCatchStyle, hcd]
  simp only []
  rw [hse]

theorem connFirst_ok (w : World) (s msg : String) (qs : List (String × SqlText))
    (t : List Effect) (rows : List Row)
    (hcd : connect_to_db w s = (.ok (), t))
    (hse : w.runQuery .createExtension = .ok rows) :
    (executeConnFirstStyle w s msg qs).1 = .ok (qs.map (fun p => (p.1, queryOrEmpty w p.2)))
    ∧ ∀ p ∈ qs, Effect.dbQuery p.2 ∈ (executeConnFirstStyle w s msg qs).2 := by
  have h1 : executeConnFirstStyle w s msg qs
      = (.ok (qs.map (fun p => (p.1, queryOrEmpty w p.2))),
         t ++ [Effect.dbQuery .createExtension]
           ++ qs.map (fun p => Effect.dbQuery p.2) ++ [Effect.dbClose]) := by
    rw [executeConnFirstStyle, hcd]
    simp only []
    rw [hse, execQueriesCatch_eq]
  rw [h1]
  refine ⟨rfl, ?_⟩
  intro p hp
  exact List.mem_append_left _ (List.mem_append_right _ (List.mem_map.2 ⟨p, hp, rfl⟩))

theorem connFirst_setup_abort (w : World) (s msg : String) (qs : List (String × SqlText))
    (t : List Effect) (e : String)
    (hcd : connect_to_db w s = (.ok (), t))
    (hse : w.runQuery .createExtension = .error e) :
    (executeConnFirstStyle w s msg qs).1 = .error (msg ++ e) := by
  rw [executeConnFirstStyle, hcd]
  simp only []
  rw [hse]

theorem xid_ok (w : World) (s : String) (t : List Effect)
    (hcd : connect_to_db w s = (.ok (), t)) :
    (execute_xid_analysis w s).1
      = .ok (xidAnalysisQueries.map (fun p => (p.1, queryOrEmpty w p.2)))
    ∧ ∀ p ∈ xidAnalysisQueries, Effect.dbQuery p.2 ∈ (execute_xid_analysis w s).2 := by
  have h1 : execute_xid_analysis w s
      = (.ok (xidAnalysisQueries.map (fun p => (p.1, queryOrEmpty w p.2))),
         t ++ xidAnalysisQueries.map (fun p => Effect.dbQuery p.2) ++ [Effect.dbClose]) := by
    rw [execute_xid_analysis, hcd]
    simp only []
    rw [execQueriesCatch_eq]
  rw [h1]
  refine ⟨rfl, ?_⟩
  intro p hp
  exact List.mem_append_left _ (List.mem_append_right t (List.mem_map.2 ⟨p, hp, rfl⟩))

theorem slow_query_abort (w : World) (s : String) (m : Int) (t : List Effect)
    (rows : List Row) (e : String)
    (hcd : connect_to_db w s = (.ok (), t))
    (hse : w.runQuery .createExtension = .ok rows)
    (hq : w.runQuery .sq_active_slow_queries = .error e) :
    (execute_slow_query w s m).1 = .error ("Failed to retrieve slow queries: " ++ e)
    ∧ Effect.dbQuery .sq_top_queries_by_avg_time ∉ (execute_slow_query w s m).2 := by
  have h2 : execQueriesNoCatch w slowQueryQueries
      = (.error e, [.dbQuery .sq_active_slow_queries]) := by
    rw [slowQueryQueries, execQueriesNoCatch, hq]
  have h1 : execute_slow_query w s m
      = (.error ("Failed to retrieve slow queries: " ++ e),
         t ++ [Effect.dbQuery .createExtension]
           ++ [Effect.dbQuery .sq_active_slow_queries] ++ [Effect.dbClose]) := by
    rw [execute_slow_query, hcd]
    simp only []
    rw [hse, h2]
  rw [h1]
  refine ⟨rfl, ?_⟩
  have ht := connect_trace_ok_eq w s t hcd
  subst ht
  simp

/-- C3, counterexample: the claim includes `slow_query` among the actions
whose per-query failure is caught and recorded as an empty result while the
remaining queries still run.  But `execute_slow_query` has no per-query
`try/except`: in a world where its first named query
(`active_slow_queries`) fails with "boom" while everything else succeeds, the
whole action aborts with the wrapped error and the remaining queries of the
set are never executed. -/
theorem C3_counterexample :
    (execute_slow_query wFailActive "s" 1000).1
      = .error "Failed to retrieve slow queries: boom"
    ∧ Effect.dbQuery .sq_top_queries_by_avg_time ∉ (execute_slow_query wFailActive "s" 1000).2 := by
  constructor
  · rfl
  · decide

/-- C3, amended: for every multi-query action **except** `slow_query`
(`connection_management_issues`, `index_analysis`, `autovacuum_analysis`,
`io_analysis`, `replication_analysis`, `system_health`, `xid_analysis`), once
the connection is up (and the session-setup statement succeeded, for the sets
that have one) a failure of one named query is caught and recorded as the
empty result for that name while every query of the set is still executed;
failure of the session-setup statement `CREATE EXTENSION IF NOT EXISTS
pg_stat_statements` aborts the whole action; and in `execute_slow_query` the
failure of a named query aborts the whole action instead of being recorded
as an empty result. -/
theorem C3_per_query_recovery :
    (∀ (w : World) (s : String) (m : Int) (t : List Effect) (rows : List Row),
        connect_to_db w s = (.ok (), t) →
        w.runQuery .createExtension = .ok rows →
        ((execute_connect_issues w s m).1
            = .ok (connIssuesQueries.map (fun p => (p.1, queryOrEmpty w p.2)))
          ∧ ∀ p ∈ connIssuesQueries, Effect.dbQuery p.2 ∈ (execute_connect_issues w s m).2)
        ∧ ((execute_index_analysis w s).1
            = .ok (indexAnalysisQueries.map (fun p => (p.1, queryOrEmpty w p.2)))
          ∧ ∀ p ∈ indexAnalysisQueries, Effect.dbQuery p.2 ∈ (execute_index_analysis w s).2)
        ∧ ((execute_autovacuum_analysis w s).1
            = .ok (autovacuumQueries.map (fun p => (p.1, queryOrEmpty w p.2)))
          ∧ ∀ p ∈ autovacuumQueries, Effect.dbQuery p.2 ∈ (execute_autovacuum_analysis w s).2)
        ∧ ((execute_io_analysis w s).1
            = .ok (ioAnalysisQueries.map (fun p => (p.1, queryOrEmpty w p.2)))
          ∧ ∀ p ∈ ioAnalysisQueries, Effect.dbQuery p.2 ∈ (execute_io_analysis w s).2)
        ∧ ((execute_replication_analysis w s).1
            = .ok (replicationQueries.map (fun p => (p.1, queryOrEmpty w p.2)))
          ∧ ∀ p ∈ replicationQueries, Effect.dbQuery p.2 ∈ (execute_replication_analysis w s).2)
        ∧ ((execute_system_health w s).1
            = .ok (systemHealthQueries.map (fun p => (p.1, queryOrEmpty w p.2)))
          ∧ ∀ p ∈ systemHealthQueries, Effect.dbQuery p.2 ∈ (execute_system_health w s).2))
    ∧ (∀ (w : World) (s : String) (t : List Effect),
        connect_to_db w s = (.ok (), t) →
        (execute_xid_analysis w s).1
            = .ok (xidAnalysisQueries.map (fun p => (p.1, queryOrEmpty w p.2)))
          ∧ ∀ p ∈ xidAnalysisQueries, Effect.dbQuery p.2 ∈ (execute_xid_analysis w s).2)
    ∧ (∀ (w : World) (s : String) (m : Int) (t : List Effect) (e : String),
        connect_to_db w s = (.ok (), t) →
        w.runQuery .createExtension = .error e →
        (execute_connect_issues w s m).1
            = .error ("Failed to retrieve connection metrics: " ++ e)
        ∧ (execute_index_analysis w s).1 = .error ("Failed to retrieve index metrics: " ++ e)
        ∧ (execute_autovacuum_analysis w s).1
            = .error ("Failed to retrieve autovacuum metrics: " ++ e)
        ∧ (execute_io_analysis w s).1 = .error ("Failed to retrieve I/O metrics: " ++ e)
        ∧ (execute_replication_analysis w s).1
            = .error ("Failed to retrieve replication metrics: " ++ e)
        ∧ (execute_system_health w s).1
            = .error ("Failed to retrieve system health metrics: " ++ e))
    ∧ (∀ (w : World) (s : String) (m : Int) (t : List Effect) (rows : List Row) (e : String),
        connect_to_db w s = (.ok (), t) →
        w.runQuery .createExtension = .ok rows →
        w.runQuery .sq_active_slow_queries = .error e →
        (execute_slow_query w s m).1 = .error ("Failed to retrieve slow queries: " ++ e)
        ∧ Effect.dbQuery .sq_top_queries_by_avg_time ∉ (execute_slow_query w s m).2) := by
  refine ⟨?_, ?_, ?_, ?_⟩
  · intro w s m t rows hcd hse
    exact ⟨catchStyle_ok w s _ connIssuesQueries t rows hcd hse,
           catchStyle_ok w s _ indexAnalysisQueries t rows hcd hse,
           catchStyle_ok w s _ autovacuumQueries t rows hcd hse,
           connFirst_ok w s _ ioAnalysisQueries t rows hcd hse,
           connFirst_ok w s _ replicationQueries t rows hcd hse,
           connFirst_ok w s _ systemHealthQueries t rows hcd hse⟩
  · intro w s t hcd
    exact xid_ok w s t hcd
  · intro w s m t e hcd hse
    exact ⟨catchStyle_setup_abort w s _ connIssuesQueries t e hcd hse,
           catchStyle_setup_abort w s _ indexAnalysisQueries t e hcd hse,
           catchStyle_setup_abort w s _ autovacuumQueries t e hcd hse,
           connFirst_setup_abort w s _ ioAnalysisQueries t e hcd hse,
           connFirst_setup_abort w s _ replicationQueries t e hcd hse,
           connFirst_setup_abort w s _ systemHealthQueries t e hcd hse⟩
  · intro w s m t rows e hcd hse hq
    exact slow_query_abort w s m t rows e hcd hse hq

/-- Witness for `C3_per_query_recovery` at the concrete worlds `wAllOk` and
`wFailActive`. -/
theorem C3_per_query_recovery_witness :
    ((execute_connect_issues wAllOk "s" 1000).1
        = .ok (connIssuesQueries.map (fun p => (p.1, queryOrEmpty wAllOk p.2)))
      ∧ (execute_xid_analysis wAllOk "s").1
        = .ok (xidAnalysisQueries.map (fun p => (p.1, queryOrEmpty wAllOk p.2))))
    ∧ (execute_slow_query wFailActive "s" 1000).1
        = .error "Failed to retrieve slow queries: boom" := by
  refine ⟨⟨?_, ?_⟩, ?_⟩
  · exact ((C3_per_query_recovery.1 wAllOk "s" 1000
      [Effect.secretGet "s", Effect.dbConnect] [] rfl rfl).1).1
  · exact (C3_per_query_recovery.2.1 wAllOk "s"
      [Effect.secretGet "s", Effect.dbConnect] rfl).1
  · exact (C3_per_query_recovery.2.2.2 wFailActive "s" 1000
      [Effect.secretGet "s", Effect.dbConnect] [] "boom" rfl rfl rfl).1

theorem runAction_none (w : World) (s a : String) (h : a ∉ knownActionTypes) :
    runAction w s a = none := by
  simp only [knownActionTypes, List.mem_cons, List.not_mem_nil, or_false, not_or] at h
  obtain ⟨h1, h2, h3, h4, h5, h6, h7, h8, h9, h10, h11⟩ := h
  simp [runAction, h1, h2, h3, h4, h5, h6, h7, h8, h9, h10, h11]

theorem get_env_secret_effects (w : World) (env : String) :
    ∀ e ∈ (get_env_secret w env).2, ∃ n, e = Effect.ssmGet n := by
  intro e he
  rw [get_env_secret] at he
  split at he
  · rcases hp : w.paramStore ("/AuroraOps/" ++ env) with pe | v
    · rw [hp] at he
      rcases pe with _ | m <;> (simp at he; exact ⟨_, he⟩)
    · rw [hp] at he
      simp at he
      exact ⟨_, he⟩
  · split at he
    · rcases hp : w.paramStore ("/AuroraOps/" ++ env) with pe | v <;>
        (rw [hp] at he; simp at he; exact ⟨_, he⟩)
    · simp at he

theorem handler_unknown_trace (w : World) (ev : Event) (a : String)
    (ha : ev.args.action_type = some a) (hreg : a ∉ knownActionTypes) :
    (lambda_handler w ev).2 = []
    ∨ (lambda_handler w ev).2 = (get_env_secret w (ev.args.environment.getD "")).2 := by
  simp only [lambda_handler]
  by_cases hmiss : (pyMissing ev.args.environment || pyMissing ev.args.action_type) = true
  · rw [if_pos hmiss]
    exact Or.inl rfl
  · rw [if_neg hmiss]
    rcases hg : get_env_secret w (ev.args.environment.getD "") with ⟨res, t⟩
    rcases res with e | sn
    · exact Or.inr rfl
    · have hact : ev.args.action_type.getD "" = a := by rw [ha]; rfl
      simp only []
      rw [hact, runAction_none w sn a hreg]
      exact Or.inr rfl

theorem handler_unknown_resolved (w : World) (ev : Event) (a env sn : String)
    (ha : ev.args.action_type = some a) (hreg : a ∉ knownActionTypes)
    (henv : ev.args.environment = some env) (hne : env.isEmpty = false)
    (hane : a.isEmpty = false)
    (hok : (get_env_secret w env).1 = .ok sn) :
    (lambda_handler w ev).1 = .errorContent (unknownActionMsg a) := by
  simp only [lambda_handler]
  have hmiss : (pyMissing ev.args.environment || pyMissing ev.args.action_type) = false := by
    rw [ha, henv]
    simp [pyMissing, hne, hane]
  rw [if_neg (by simp [hmiss])]
  have hgd : ev.args.environment.getD "" = env := by rw [henv]; rfl
  rw [hgd]
  rcases hg : get_env_secret w env with ⟨res, t⟩
  rw [hg] at hok
  rcases res with e | sn'
  · simp at hok
  · have hact : ev.args.action_type.getD "" = a := by rw [ha]; rfl
    simp only []
    rw [hact, runAction_none w sn' a hreg]

/-- C1, counterexample: the claim promises the `Unknown action_type` error
for **every** request with an unregistered action type, but a request whose
environment is also invalid (`staging`) gets the environment error instead —
the environment is resolved before the action type is checked. -/
theorem C1_counterexample :
    (lambda_handler wAllOk evC1).1
      = .errorContent "Error analyzing slow queries: Unknown environment: staging"
    ∧ (lambda_handler wAllOk evC1).1 ≠ .errorContent (unknownActionMsg "bogus") := by
  exact ⟨rfl, by decide⟩

/-- C1, amended: for every request whose `action_type` is present but not one
of the eleven registered values, no database connection is ever opened and no
query is ever executed; and whenever both parameters are present (non-empty)
and the environment's secret name resolves successfully, the response is
exactly the `Unknown action_type` error listing the known action set.  (When
the environment is missing or fails to resolve, the corresponding
missing-parameter or environment error is returned first instead.) -/
theorem C1_unknown_action (w : World) (ev : Event) (a : String)
    (ha : ev.args.action_type = some a) (hreg : a ∉ knownActionTypes) :
    ((lambda_handler w ev).2.count .dbConnect = 0
      ∧ ∀ q, Effect.dbQuery q ∉ (lambda_handler w ev).2)
    ∧ (∀ env sn, ev.args.environment = some env → env.isEmpty = false →
        a.isEmpty = false → (get_env_secret w env).1 = .ok sn →
        (lambda_handler w ev).1 = .errorContent (unknownActionMsg a)) := by
  constructor
  · rcases handler_unknown_trace w ev a ha hreg with h | h
    · rw [h]
      exact ⟨rfl, fun q => by simp⟩
    · rw [h]
      have hall := get_env_secret_effects w (ev.args.environment.getD "")
      constructor
      · rw [List.count_eq_zero]
        intro hm
        rcases hall _ hm with ⟨n, hn⟩
        cases hn
      · intro q hm
        rcases hall _ hm with ⟨n, hn⟩
        cases hn
  · intro env sn henv hne hane hok
    exact handler_unknown_resolved w ev a env sn ha hreg henv hne hane hok

/-- Witness for `C1_unknown_action` at the concrete request
`{environment: "dev", action_type: "bogus"}` against `wAllOk`. -/
theorem C1_unknown_action_witness :
    (lambda_handler wAllOk evC4).2.count .dbConnect = 0
    ∧ (lambda_handler wAllOk evC4).1 = .errorContent (unknownActionMsg "bogus") := by
  refine ⟨(C1_unknown_action wAllOk evC4 "bogus" rfl (by decide)).1.1, ?_⟩
  exact (C1_unknown_action wAllOk evC4 "bogus" rfl (by decide)).2
    "dev" "secret-dev" rfl rfl rfl rfl

/-- C4, counterexample: the claim says that for a valid environment with an
unknown action type no parameter-store call occurs before the error response;
but the handler resolves `/AuroraOps/dev` through the parameter store
**before** checking `action_type`, so the trace contains that call. -/
theorem C4_counterexample :
    lambda_handler wAllOk evC4
      = (.errorContent (unknownActionMsg "bogus"), [Effect.ssmGet "/AuroraOps/dev"])
    ∧ (lambda_handler wAllOk evC4).2 ≠ [] := by
  exact ⟨rfl, by decide⟩

/-- C4, amended: a request with a missing (or empty) `environment` or
`action_type` is rejected before any I/O (the effect trace is empty); for a
present but unregistered `action_type`, the only I/O that can precede the
error response is parameter-store resolution of the environment — no
secrets-manager call, no connection attempt and no query ever occurs. -/
theorem C4_validation_order :
    (∀ (w : World) (ev : Event),
        (pyMissing ev.args.environment || pyMissing ev.args.action_type) = true →
        lambda_handler w ev = (.errorContent missingParamsMsg, []))
    ∧ (∀ (w : World) (ev : Event) (a : String),
        ev.args.action_type = some a → a ∉ knownActionTypes →
        ∀ e ∈ (lambda_handler w ev).2, ∃ n, e = Effect.ssmGet n) := by
  constructor
  · intro w ev h
    simp only [lambda_handler]
    rw [if_pos h]
  · intro w ev a ha hreg e he
    rcases handler_unknown_trace w ev a ha hreg with h | h
    · rw [h] at he
      simp at he
    · rw [h] at he
      exact get_env_secret_effects w _ e he

/-- Witness for `C4_validation_order`: a request with a missing environment
is rejected with an empty trace, and the parameter-store read of
`/AuroraOps/dev` is the (only) effect the unknown-action request performs. -/
theorem C4_validation_order_witness :
    lambda_handler wAllOk (Event.flat ⟨none, some "bogus"⟩)
      = (.errorContent missingParamsMsg, [])
    ∧ (∃ n, Effect.ssmGet "/AuroraOps/dev" = Effect.ssmGet n) := by
  refine ⟨C4_validation_order.1 wAllOk _ rfl, ?_⟩
  exact C4_validation_order.2 wAllOk evC4 "bogus" rfl (by decide)
    (Effect.ssmGet "/AuroraOps/dev") (by decide)

/-- C10: for every event and every behaviour of the external world,
`lambda_handler` returns one of the handler's response dictionaries — it is a
total function of the embedding, mirroring the catch-all `except` of the
source, so no exception propagates.  The response is the success shape, one
of the two pre-dispatch validation errors (missing parameters / unknown
action type), or an error content whose message carries the fixed prefix
`Error analyzing slow queries: ` — the prefix is the same whichever
`action_type` was requested, because the single `except` clause formats every
raised error. -/
theorem C10_handler_total (w : World) (ev : Event) :
    (∃ body, (lambda_handler w ev).1 = .success body)
    ∨ (lambda_handler w ev).1 = .errorContent missingParamsMsg
    ∨ (∃ a, (lambda_handler w ev).1 = .errorContent (unknownActionMsg a))
    ∨ (∃ e, (lambda_handler w ev).1 = .errorContent (analyzeErrPre ++ e)) := by
  simp only [lambda_handler]
  by_cases hmiss : (pyMissing ev.args.environment || pyMissing ev.args.action_type) = true
  · rw [if_pos hmiss]
    exact Or.inr (Or.inl rfl)
  · rw [if_neg hmiss]
    rcases hg : get_env_secret w (ev.args.environment.getD "") with ⟨res, t⟩
    rcases res with e | sn
    · exact Or.inr (Or.inr (Or.inr ⟨e, rfl⟩))
    · simp only []
      rcases hr : runAction w sn (ev.args.action_type.getD "") with _ | ⟨res2, t2⟩
      · exact Or.inr (Or.inr (Or.inl ⟨_, rfl⟩))
      · rcases res2 with e2 | body
        · exact Or.inr (Or.inr (Or.inr ⟨e2, rfl⟩))
        · exact Or.inl ⟨body, rfl⟩

/-- C9: every result formatter of the embedding is a pure total function of
its input alone (the embedding types them `List (String × List Row) → List
String` with no world argument, mirroring Python formatters that read only
their `results` parameter and call no clock or I/O); hence formatting equal
`QueryResult` mappings — the same one twice, in one run or across runs —
yields byte-identical report text.  Timestamps appear only as row values
carried through `renderv`. -/
theorem C9_formatters_deterministic :
    (∀ r₁ r₂ : List (String × List Row), r₁ = r₂ →
      renderChunks (format_results_for_slow_query r₁)
        = renderChunks (format_results_for_slow_query r₂))
    ∧ (∀ r₁ r₂ : List (String × List Row), r₁ = r₂ →
      renderChunks (format_results_for_conn_issues r₁)
        = renderChunks (format_results_for_conn_issues r₂))
    ∧ (∀ r₁ r₂ : List (String × List Row), r₁ = r₂ →
      renderChunks (format_results_for_index_analysis r₁)
        = renderChunks (format_results_for_index_analysis r₂))
    ∧ (∀ r₁ r₂ : List (String × List Row), r₁ = r₂ →
      renderChunks (format_results_for_autovacuum_analysis r₁)
        = renderChunks (format_results_for_autovacuum_analysis r₂))
    ∧ (∀ r₁ r₂ : List (String × List Row), r₁ = r₂ →
      renderChunks (format_results_for_io_analysis r₁)
        = renderChunks (format_results_for_io_analysis r₂))
    ∧ (∀ r₁ r₂ : List (String × List Row), r₁ = r₂ →
      renderChunks (format_results_for_replication_analysis r₁)
        = renderChunks (format_results_for_replication_analysis r₂))
    ∧ (∀ r₁ r₂ : List (String × List Row), r₁ = r₂ →
      renderChunks (format_results_for_system_health r₁)
        = renderChunks (format_results_for_system_health r₂))
    ∧ (∀ r₁ r₂ : List (String × List Row), r₁ = r₂ →
      renderChunks (format_results_for_xid_analysis r₁)
        = renderChunks (format_results_for_xid_analysis r₂))
    ∧ (∀ r₁ r₂ : List Row, r₁ = r₂ →
      renderChunks (format_results_for_vacuum_progress r₁)
        = renderChunks (format_results_for_vacuum_progress r₂))
    ∧ (∀ r₁ r₂ : List Row, r₁ = r₂ →
      renderChunks (format_results_for_bloat_analysis r₁)
        = renderChunks (format_results_for_bloat_analysis r₂))
    ∧ (∀ r₁ r₂ : List Row, r₁ = r₂ →
      renderChunks (format_results_for_long_running_transactions r₁)
        = renderChunks (format_results_for_long_running_transactions r₂)) :=
  ⟨fun _ _ h => by rw [h], fun _ _ h => by rw [h], fun _ _ h => by rw [h],
   fun _ _ h => by rw [h], fun _ _ h => by rw [h], fun _ _ h => by rw [h],
   fun _ _ h => by rw [h], fun _ _ h => by rw [h], fun _ _ h => by rw [h],
   fun _ _ h => by rw [h], fun _ _ h => by rw [h]⟩

/-- Witness for `C9_formatters_deterministic` at a concrete result set. -/
theorem C9_formatters_deterministic_witness :
    renderChunks (format_results_for_system_health c6results1)
      = renderChunks (format_results_for_system_health c6results1) :=
  C9_formatters_deterministic.2.2.2.2.2.2.1 c6results1 c6results1 rfl

/-- C7, counterexample: the claim covers **every** formatter, but
`format_results_for_xid_analysis` skips an empty section without emitting any
fallback sentence: with every query result empty its whole report is the bare
section header, and contains no "No ..." sentence at all. -/
theorem C7_counterexample :
    format_results_for_xid_analysis [] = ["=== XID WRAPAROUND ANALYSIS ===\n"]
    ∧ containsSub "No " (renderChunks (format_results_for_xid_analysis [])) = false := by
  exact ⟨rfl, by decide⟩

/-- C7, amended: every formatter is a total function (it cannot raise — the
embedding is a plain function on every input), and every formatter **except**
`format_results_for_xid_analysis` emits its documented fallback sentence for
a query result that is empty or missing: one implication per (formatter,
section) pair, plus the whole-report fallbacks of the three single-query
formatters.  `format_results_for_xid_analysis` omits empty sections without
any fallback (see the counterexample). -/
theorem C7_empty_fallbacks :
    (∀ res, lookupD res "slow_queries" = [] →
      "No slow queries found.\n" ∈ format_results_for_slow_query res)
    ∧ (∀ res, lookupD res "high_io_queries" = [] →
      "No high I/O queries found.\n" ∈ format_results_for_slow_query res)
    ∧ (∀ res, lookupD res "high_temp_queries" = [] →
      "No high temp usage queries found.\n" ∈ format_results_for_slow_query res)
    ∧ (∀ res, lookupD res "blocking_queries" = [] →
      "No blocking queries found.\n" ∈ format_results_for_slow_query res)
    ∧ (∀ res, lookupD res "current_connections" = [] →
      "No current connections found.\n" ∈ format_results_for_conn_issues res)
    ∧ (∀ res, lookupD res "connection_stats" = [] →
      "No connection statistics available.\n" ∈ format_results_for_conn_issues res)
    ∧ (∀ res, lookupD res "idle_connections" = [] →
      "No idle connections found.\n" ∈ format_results_for_conn_issues res)
    ∧ (∀ res, lookupD res "locked_queries" = [] →
      "No locked queries found.\n" ∈ format_results_for_conn_issues res)
    ∧ (∀ res, lookupD res "unused_indexes" = [] →
      "No unused indexes found.\n" ∈ format_results_for_index_analysis res)
    ∧ (∀ res, lookupD res "missing_indexes" = [] →
      "No tables with significant sequential scans found.\n"
        ∈ format_results_for_index_analysis res)
    ∧ (∀ res, lookupD res "index_efficiency" = [] →
      "No index usage statistics found.\n" ∈ format_results_for_index_analysis res)
    ∧ (∀ res, lookupD res "tables_needing_vacuum" = [] →
      "No tables with dead tuples found.\n" ∈ format_results_for_autovacuum_analysis res)
    ∧ (∀ res, lookupD res "autovacuum_activity" = [] →
      "No active autovacuum processes found.\n" ∈ format_results_for_autovacuum_analysis res)
    ∧ (∀ res, lookupD res "table_bloat" = [] →
      "No table bloat information available.\n" ∈ format_results_for_autovacuum_analysis res)
    ∧ (∀ res, lookupD res "wraparound_status" = [] →
      "No wraparound status information available.\n"
        ∈ format_results_for_autovacuum_analysis res)
    ∧ (∀ res, lookupD res "buffer_usage" = [] →
      "No buffer usage statistics available.\n" ∈ format_results_for_io_analysis res)
    ∧ (∀ res, lookupD res "checkpoint_activity" = [] →
      "No checkpoint activity information available.\n" ∈ format_results_for_io_analysis res)
    ∧ (∀ res, lookupD res "io_statistics" = [] →
      "No I/O statistics available.\n" ∈ format_results_for_io_analysis res)
    ∧ (∀ res, lookupD res "aurora_replica_status" = [] →
      "No Aurora replica status information available.\n"
        ∈ format_results_for_replication_analysis res)
    ∧ (∀ res, lookupD res "replication_slots" = [] →
      "No replication slots found.\n" ∈ format_results_for_replication_analysis res)
    ∧ (∀ res, lookupD res "replication_connections" = [] →
      "No replication connections found.\n" ∈ format_results_for_replication_analysis res)
    ∧ (∀ res, lookupD res "database_statistics" = [] →
      "No database statistics available.\n" ∈ format_results_for_system_health res)
    ∧ (∀ res, lookupD res "lock_contention" = [] →
      "No lock contention found.\n" ∈ format_results_for_system_health res)
    ∧ (∀ res, lookupD res "long_running_transactions" = [] →
      "No long-running transactions found.\n" ∈ format_results_for_system_health res)
    ∧ format_results_for_vacuum_progress [] = ["No active vacuum operations found."]
    ∧ format_results_for_bloat_analysis [] = ["No significant table bloat found."]
    ∧ format_results_for_long_running_transactions []
        = ["No long-running transactions found."] := by
  refine ⟨?_, ?_, ?_, ?_, ?_, ?_, ?_, ?_, ?_, ?_, ?_, ?_, ?_, ?_, ?_, ?_, ?_, ?_,
    ?_, ?_, ?_, ?_, ?_, ?_, rfl, rfl, rfl⟩ <;>
    · intro res h
      simp [format_results_for_slow_query, format_results_for_conn_issues,
        format_results_for_index_analysis, format_results_for_autovacuum_analysis,
        format_results_for_io_analysis, format_results_for_replication_analysis,
        format_results_for_system_health, h]

/-- C2 (code bug): in a world where **every** named query succeeds with a
nonempty row set, `execute_slow_query` returns exactly its seven declared
query names in declared order — but `format_results_for_slow_query` reads
the key `slow_queries`, which is not among them, so its first section always
renders the fallback "No slow queries found." and the results of
`active_slow_queries`, `top_queries_by_avg_time`, `top_queries_by_calls` and
`slow_queries_detailed` are silently discarded.  For `autovacuum_analysis`
the mismatch is total: the formatter's four keys (`tables_needing_vacuum`,
`autovacuum_activity`, `table_bloat`, `wraparound_status`) are disjoint from
the executor's ten query names, so every section of its report shows a
fallback sentence no matter what the queries returned. -/
theorem C2_formatter_keys_mismatch :
    (execute_slow_query wAllOk "s" 1000).1 = .ok slowC2Results
    ∧ slowC2Results.map Prod.fst
        = ["active_slow_queries", "top_queries_by_avg_time", "top_queries_by_calls",
           "slow_queries_detailed", "high_io_queries", "high_temp_queries",
           "blocking_queries"]
    ∧ slowC2Results.map Prod.fst = slowQueryQueries.map Prod.fst
    ∧ "slow_queries" ∉ slowQueryQueries.map Prod.fst
    ∧ slowC2Results.all (fun p => !p.2.isEmpty) = true
    ∧ "No slow queries found.\n" ∈ format_results_for_slow_query slowC2Results
    ∧ (execute_autovacuum_analysis wAllOk "s").1 = .ok avC2Results
    ∧ avC2Results.map Prod.fst = autovacuumQueries.map Prod.fst
    ∧ avC2Results.all (fun p => !p.2.isEmpty) = true
    ∧ "tables_needing_vacuum" ∉ autovacuumQueries.map Prod.fst
    ∧ "autovacuum_activity" ∉ autovacuumQueries.map Prod.fst
    ∧ "table_bloat" ∉ autovacuumQueries.map Prod.fst
    ∧ "wraparound_status" ∉ autovacuumQueries.map Prod.fst
    ∧ "No tables with dead tuples found.\n"
        ∈ format_results_for_autovacuum_analysis avC2Results
    ∧ "No active autovacuum processes found.\n"
        ∈ format_results_for_autovacuum_analysis avC2Results
    ∧ "No table bloat information available.\n"
        ∈ format_results_for_autovacuum_analysis avC2Results
    ∧ "No wraparound status information available.\n"
        ∈ format_results_for_autovacuum_analysis avC2Results := by
  refine ⟨rfl, by decide, by decide, by decide, by decide, by decide, rfl, by decide,
    by decide, by decide, by decide, by decide, by decide, by decide, by decide,
    by decide, by decide⟩

/-- C5, counterexample: the claim says a zero hit-ratio denominator yields a
"0%" hit-ratio field; in fact the formatters **omit** the field.  With the
`database_statistics` row `c5statRow` (`blks_read = blks_hit = 0`) the
system-health report contains no chunk beginning "• Cache Hit Ratio: ", and
with the `io_statistics` row `c5ioRow` (all heap/index counters zero) the I/O
report contains no chunk beginning "• Overall Buffer Hit Ratio: ". -/
theorem C5_counterexample :
    (format_results_for_system_health c5results).filter
        (leadsWith "• Cache Hit Ratio: ") = []
    ∧ (format_results_for_io_analysis c5ioResults).filter
        (leadsWith "• Overall Buffer Hit Ratio: ") = [] := by
  exact ⟨rfl, rfl⟩

/-- C5, amended: in `format_results_for_system_health`, when a statistics
row's denominator `blks_read + blks_hit` is zero the cache-hit-ratio line
(and its warning) is omitted entirely — no NaN, no error, but also no "0%"
field; when the denominator is positive, exactly one hit-ratio line is
rendered.  Likewise the detailed-I/O section omits its "Overall Buffer Hit
Ratio" line when the heap/index reads-plus-hits sum is zero.  (The SQL-side
guards `ELSE 0` in `buffer_usage` and `slow_queries_detailed` do substitute
0; the formatter-side guards cited by the claim do not.) -/
theorem C5_zero_denominator (stat : Row) :
    (getInt stat "blks_read" + getInt stat "blks_hit" = 0 →
      (dbStatChunks stat).filter (leadsWith "• Cache Hit Ratio: ") = [])
    ∧ (0 < getInt stat "blks_read" + getInt stat "blks_hit" →
      ∃ q, (dbStatChunks stat).filter (leadsWith "• Cache Hit Ratio: ")
        = [bullet ("Cache Hit Ratio: " ++ fix2Render q ++ "%")])
    ∧ (∀ i : Nat, getInt stat "heap_blks_read" + getInt stat "idx_blks_read"
          + (getInt stat "heap_blks_hit" + getInt stat "idx_blks_hit") = 0 →
      (ioStatRowChunks i stat).filter (leadsWith "• Overall Buffer Hit Ratio: ") = []) := by
  refine ⟨?_, ?_, ?_⟩
  · intro h
    have hneg : ¬(0 < getInt stat "blks_read" + getInt stat "blks_hit") := by omega
    simp only [dbStatChunks]
    rw [if_neg hneg]
    split_ifs <;> rfl
  · intro h
    refine ⟨((getInt stat "blks_hit" : ℚ)
      / ((getInt stat "blks_read" + getInt stat "blks_hit" : Int) : ℚ)) * 100, ?_⟩
    simp only [dbStatChunks]
    rw [if_pos h]
    split_ifs <;> rfl
  · intro i h
    have hneg : ¬(0 < getInt stat "heap_blks_read" + getInt stat "idx_blks_read"
        + (getInt stat "heap_blks_hit" + getInt stat "idx_blks_hit")) := by omega
    simp only [ioStatRowChunks]
    rw [if_neg hneg]
    rfl

theorem dwarn_mem_dbStat (stat : Row) :
    (("⚠️ Warning: Deadlocks detected!\n" : String) ∈ dbStatChunks stat)
    ↔ 0 < getInt stat "deadlocks" := by
  simp [dbStatChunks, warnDeadlocks, warnConflicts, warnTempFiles, warnLowCacheHit,
    mem_ite_nil]

theorem cwarn_mem_dbStat (stat : Row) :
    (("⚠️ Warning: Conflicts detected!\n" : String) ∈ dbStatChunks stat)
    ↔ 0 < getInt stat "conflicts" := by
  simp [dbStatChunks, warnDeadlocks, warnConflicts, warnTempFiles, warnLowCacheHit,
    mem_ite_nil]

theorem twarn_mem_dbStat (stat : Row) :
    (("⚠️ Warning: High number of temporary files created!\n" : String) ∈ dbStatChunks stat)
    ↔ 1000 < getInt stat "temp_files" := by
  simp [dbStatChunks, warnDeadlocks, warnConflicts, warnTempFiles, warnLowCacheHit,
    mem_ite_nil]

theorem dwarn_not_mem_lockRow (i : Nat) (lock : Row) :
    ("⚠️ Warning: Deadlocks detected!\n" : String) ∉ lockRowChunks i lock := by
  simp [lockRowChunks, warnLockWaiting, mem_ite_nil_left]

theorem cwarn_not_mem_lockRow (i : Nat) (lock : Row) :
    ("⚠️ Warning: Conflicts detected!\n" : String) ∉ lockRowChunks i lock := by
  simp [lockRowChunks, warnLockWaiting, mem_ite_nil_left]

theorem twarn_not_mem_lockRow (i : Nat) (lock : Row) :
    ("⚠️ Warning: High number of temporary files created!\n" : String)
      ∉ lockRowChunks i lock := by
  simp [lockRowChunks, warnLockWaiting, mem_ite_nil_left]

theorem dwarn_not_mem_lockSection (rows : List Row) :
    ("⚠️ Warning: Deadlocks detected!\n" : String) ∉ lockSectionChunks rows := by
  intro h
  rw [lockSectionChunks] at h
  rcases List.mem_flatMap.1 h with ⟨rel, _, hmem⟩
  rcases List.mem_append.1 hmem with h1 | h2
  · simp at h1
  · rcases List.mem_flatMap.1 h2 with ⟨p, _, hp⟩
    exact dwarn_not_mem_lockRow p.1 p.2 hp

theorem cwarn_not_mem_lockSection (rows : List Row) :
    ("⚠️ Warning: Conflicts detected!\n" : String) ∉ lockSectionChunks rows := by
  intro h
  rw [lockSectionChunks] at h
  rcases List.mem_flatMap.1 h with ⟨rel, _, hmem⟩
  rcases List.mem_append.1 hmem with h1 | h2
  · simp at h1
  · rcases List.mem_flatMap.1 h2 with ⟨p, _, hp⟩
    exact cwarn_not_mem_lockRow p.1 p.2 hp

theorem twarn_not_mem_lockSection (rows : List Row) :
    ("⚠️ Warning: High number of temporary files created!\n" : String)
      ∉ lockSectionChunks rows := by
  intro h
  rw [lockSectionChunks] at h
  rcases List.mem_flatMap.1 h with ⟨rel, _, hmem⟩
  rcases List.mem_append.1 hmem with h1 | h2
  · simp at h1
  · rcases List.mem_flatMap.1 h2 with ⟨p, _, hp⟩
    exact twarn_not_mem_lockRow p.1 p.2 hp

theorem dwarn_not_mem_lockSectionIte (rows : List Row) :
    ("⚠️ Warning: Deadlocks detected!\n" : String)
      ∉ (if rows = [] then ["No lock contention found.\n"]
         else lockSectionChunks rows) := by
  split
  · simp
  · exact dwarn_not_mem_lockSection rows

theorem cwarn_not_mem_lockSectionIte (rows : List Row) :
    ("⚠️ Warning: Conflicts detected!\n" : String)
      ∉ (if rows = [] then ["No lock contention found.\n"]
         else lockSectionChunks rows) := by
  split
  · simp
  · exact cwarn_not_mem_lockSection rows

theorem twarn_not_mem_lockSectionIte (rows : List Row) :
    ("⚠️ Warning: High number of temporary files created!\n" : String)
      ∉ (if rows = [] then ["No lock contention found.\n"]
         else lockSectionChunks rows) := by
  split
  · simp
  · exact twarn_not_mem_lockSection rows

theorem dwarn_not_mem_txnRow (i : Nat) (txn : Row) :
    ("⚠️ Warning: Deadlocks detected!\n" : String) ∉ txnRowChunks i txn := by
  simp [txnRowChunks, warnLongTxn, mem_ite_nil]

theorem cwarn_not_mem_txnRow (i : Nat) (txn : Row) :
    ("⚠️ Warning: Conflicts detected!\n" : String) ∉ txnRowChunks i txn := by
  simp [txnRowChunks, warnLongTxn, mem_ite_nil]

theorem twarn_not_mem_txnRow (i : Nat) (txn : Row) :
    ("⚠️ Warning: High number of temporary files created!\n" : String)
      ∉ txnRowChunks i txn := by
  simp [txnRowChunks, warnLongTxn, mem_ite_nil]

theorem dwarn_not_mem_txnSectionIte (rows : List Row) :
    ("⚠️ Warning: Deadlocks detected!\n" : String)
      ∉ (if rows = [] then ["No long-running transactions found.\n"]
         else (enumFrom 1 rows).flatMap (fun p => txnRowChunks p.1 p.2)) := by
  split
  · simp
  · intro h
    rcases List.mem_flatMap.1 h with ⟨p, _, hp⟩
    exact dwarn_not_mem_txnRow p.1 p.2 hp

theorem cwarn_not_mem_txnSectionIte (rows : List Row) :
    ("⚠️ Warning: Conflicts detected!\n" : String)
      ∉ (if rows = [] then ["No long-running transactions found.\n"]
         else (enumFrom 1 rows).flatMap (fun p => txnRowChunks p.1 p.2)) := by
  split
  · simp
  · intro h
    rcases List.mem_flatMap.1 h with ⟨p, _, hp⟩
    exact cwarn_not_mem_txnRow p.1 p.2 hp

theorem twarn_not_mem_txnSectionIte (rows : List Row) :
    ("⚠️ Warning: High number of temporary files created!\n" : String)
      ∉ (if rows = [] then ["No long-running transactions found.\n"]
         else (enumFrom 1 rows).flatMap (fun p => txnRowChunks p.1 p.2)) := by
  split
  · simp
  · intro h
    rcases List.mem_flatMap.1 h with ⟨p, _, hp⟩
    exact twarn_not_mem_txnRow p.1 p.2 hp

theorem dwarn_mem_sysHealth (results : List (String × List Row)) :
    (("⚠️ Warning: Deadlocks detected!\n" : String)
        ∈ format_results_for_system_health results)
    ↔ ∃ stat ∈ lookupD results "database_statistics", 0 < getInt stat "deadlocks" := by
  have hlock := dwarn_not_mem_lockSectionIte (lookupD results "lock_contention")
  have htxn := dwarn_not_mem_txnSectionIte (lookupD results "long_running_transactions")
  rw [format_results_for_system_health]
  cases hE : (lookupD results "database_statistics").isEmpty
  · simp [hE, List.mem_flatMap, dwarn_mem_dbStat, hlock, htxn]
  · have hnil : lookupD results "database_statistics" = [] := by
      cases hl : lookupD results "database_statistics" with
      | nil => rfl
      | cons a as => rw [hl] at hE; simp at hE
    simp [hE, hnil, hlock, htxn]

theorem cwarn_mem_sysHealth (results : List (String × List Row)) :
    (("⚠️ Warning: Conflicts detected!\n" : String)
        ∈ format_results_for_system_health results)
    ↔ ∃ stat ∈ lookupD results "database_statistics", 0 < getInt stat "conflicts" := by
  have hlock := cwarn_not_mem_lockSectionIte (lookupD results "lock_contention")
  have htxn := cwarn_not_mem_txnSectionIte (lookupD results "long_running_transactions")
  rw [format_results_for_system_health]
  cases hE : (lookupD results "database_statistics").isEmpty
  · simp [hE, List.mem_flatMap, cwarn_mem_dbStat, hlock, htxn]
  · have hnil : lookupD results "database_statistics" = [] := by
      cases hl : lookupD results "database_statistics" with
      | nil => rfl
      | cons a as => rw [hl] at hE; simp at hE
    simp [hE, hnil, hlock, htxn]

theorem twarn_mem_sysHealth (results : List (String × List Row)) :
    (("⚠️ Warning: High number of temporary files created!\n" : String)
        ∈ format_results_for_system_health results)
    ↔ ∃ stat ∈ lookupD results "database_statistics", 1000 < getInt stat "temp_files" := by
  have hlock := twarn_not_mem_lockSectionIte (lookupD results "lock_contention")
  have htxn := twarn_not_mem_txnSectionIte (lookupD results "long_running_transactions")
  rw [format_results_for_system_health]
  cases hE : (lookupD results "database_statistics").isEmpty
  · simp [hE, List.mem_flatMap, twarn_mem_dbStat, hlock, htxn]
  · have hnil : lookupD results "database_statistics" = [] := by
      cases hl : lookupD results "database_statistics" with
      | nil => rfl
      | cons a as => rw [hl] at hE; simp at hE
    simp [hE, hnil, hlock, htxn]

/-- C6: the system-health formatter emits the deadlock warning line
`⚠️ Warning: Deadlocks detected!` iff some database-statistics row has
`deadlocks > 0`, the conflict warning iff some row has `conflicts > 0`, and
the temporary-file warning iff some row has `temp_files > 1000` ("emits" is
formalised as the warning chunk belonging to the list of appended report
chunks).  In particular the scenario row with `deadlocks = 0, conflicts = 0,
temp_files = 5` produces a report with none of the three warning chunks, and
the row with `deadlocks = 2` produces a report containing the literal
deadlock warning. -/
theorem C6_system_health_warnings :
    (∀ results, (("⚠️ Warning: Deadlocks detected!\n" : String)
        ∈ format_results_for_system_health results
      ↔ ∃ stat ∈ lookupD results "database_statistics", 0 < getInt stat "deadlocks"))
    ∧ (∀ results, (("⚠️ Warning: Conflicts detected!\n" : String)
        ∈ format_results_for_system_health results
      ↔ ∃ stat ∈ lookupD results "database_statistics", 0 < getInt stat "conflicts"))
    ∧ (∀ results, (("⚠️ Warning: High number of temporary files created!\n" : String)
        ∈ format_results_for_system_health results
      ↔ ∃ stat ∈ lookupD results "database_statistics", 1000 < getInt stat "temp_files"))
    ∧ ("⚠️ Warning: Deadlocks detected!\n" : String)
        ∉ format_results_for_system_health c6results1
    ∧ ("⚠️ Warning: Conflicts detected!\n" : String)
        ∉ format_results_for_system_health c6results1
    ∧ ("⚠️ Warning: High number of temporary files created!\n" : String)
        ∉ format_results_for_system_health c6results1
    ∧ ("⚠️ Warning: Deadlocks detected!\n" : String)
        ∈ format_results_for_system_health c6results2 :=
  ⟨dwarn_mem_sysHealth, cwarn_mem_sysHealth, twarn_mem_sysHealth,
   by decide, by decide, by decide, by decide⟩
